import Mathlib

/-!
# Frame reconstruction in the FBS / LPPS receiver drivers

A shallow embedding of `NetDevice.cpp`, `FBS.cpp` and `LPPS.cpp`: the endpoint, the two
receivers, their command exchanges and their frame scan.

* Bytes (`uint8_t`) and sizes (`size_t`) are natural numbers; where the source
  subtracts two sizes the difference is taken modulo `2 ^ 64` (`sizeSub`).
* `std::array<uint8_t, 8000>` is a map from index to byte; only indices below
  `MAX_PACKET_LENGTH` exist in the source array.
* A pointer into the stream buffer (`&(*data)[k]`) is the index `k`.
* What the operating system answers during one call (liveness probe, bytes the
  socket can deliver, `errno`, return values of `socket`, `connect`, `send`) is an
  explicit argument: `SockEnv` for a non-blocking receive, `RecvEnv` for a blocking
  one, `SendEnv` for a transmit, `ConnEnv` for a connect.
* A C++ exception is the outcome `thrown`; the object state at the moment of the
  throw is returned next to it.
-/

/-- How a call ends: it returns a value, or it leaves by an exception.  `noReturn`
is produced only when the iteration bound given to a loop of the model is used up. -/
inductive Outcome (α : Type) where
  | ret : α → Outcome α
  | thrown : Outcome α
  | noReturn : Outcome α
  deriving DecidableEq, Repr

/-- Unsigned 64-bit subtraction (`size_t - size_t`). -/
def sizeSub (a b : Nat) : Nat := (a + 18446744073709551616 - b) % 18446744073709551616

namespace net

/-- `constexpr ssize_t MAX_PACKET_LENGTH = 8000;` -/
def MAX_PACKET_LENGTH : Nat := 8000

/-- `using NetBuffer = std::array<uint8_t, MAX_PACKET_LENGTH>`. -/
abbrev NetBuffer := Nat → Nat

/-- Answers of the operating system during one call on an endpoint. -/
structure SockEnv where
  /-- `getsockopt(_sockfd, SOL_SOCKET, SO_ERROR, ..) == 0` -/
  alive : Bool
  /-- the bytes a `recv` can take from the socket now (empty: nothing to read) -/
  avail : List Nat
  /-- `errno` is `EAGAIN` or `EWOULDBLOCK` after a `recv` that returned `<= 0` -/
  errnoAgain : Bool

/-- Answers of the operating system during one `transmit`. -/
structure SendEnv where
  /-- `getsockopt(_sockfd, SOL_SOCKET, SO_ERROR, ..) == 0` -/
  alive : Bool
  /-- the value `send(_sockfd, cmd, size, 0)` returns -/
  sent : Int

/-- Answers of the operating system during one blocking `receive`. -/
structure RecvEnv where
  /-- `getsockopt(_sockfd, SOL_SOCKET, SO_ERROR, ..) == 0` -/
  alive : Bool
  /-- the bytes `recv` takes from the socket (empty: it returns `0` or `-1`) -/
  avail : List Nat
  /-- with nothing taken, `recv` returns `0` (end of stream) instead of `-1` -/
  eof : Bool
  /-- `errno` is `EAGAIN` after a `recv` that returned `-1` -/
  errnoAgain : Bool

/-- Answers of the operating system during one `connect`. -/
structure ConnEnv where
  /-- the value `socket(AF_INET, SOCK_STREAM, IPPROTO_TCP)` returns -/
  sock : Int
  /-- the value `::connect(_sockfd, ..)` returns -/
  conn : Int
  /-- `getsockopt(_sockfd, SOL_SOCKET, SO_ERROR, ..) == 0` -/
  alive : Bool

/-- `constexpr std::size_t INIT_BUF_LENGTH = 512u;` -/
def INIT_BUF_LENGTH : Nat := 512

/-- The data members of `class NetDevice` (name and mutexes left out). -/
structure NetDevice where
  _host : String
  _port : Int
  _sockfd : Int
  _buffer : List Nat
  _nbbuffer : NetBuffer
  stubbed : Bool
  blocking : Bool

/-- `NetDevice::isStubbed`. -/
def NetDevice.isStubbed (self : NetDevice) : Bool := self.stubbed

/-- `NetDevice::isConnected`: false when stubbed, else whether `getsockopt` succeeds. -/
def NetDevice.isConnected (self : NetDevice) (env : SockEnv) : Bool :=
  if self.stubbed then false
  else if env.alive != true then false
  else true

/-- The store done by `recv(_sockfd, _nbbuffer.begin() + write_index, ..)`:
`bytes` land at `write_index, write_index + 1, ..`. -/
def recvInto (buf : NetBuffer) (write_index : Nat) (bytes : List Nat) : NetBuffer :=
  fun k => if write_index ≤ k ∧ k < write_index + bytes.length then bytes.getD (k - write_index) 0
           else buf k

/-- `NetDevice::receiveNB(write_index)`.  `recv` is asked for at most
`_nbbuffer.size() - write_index` bytes. -/
def NetDevice.receiveNB (self : NetDevice) (write_index : Nat) (env : SockEnv) :
    Outcome Nat × NetDevice :=
  if self.stubbed then (.ret 0, self)
  else if !(self.isConnected env) then (.thrown, { self with stubbed := true })
  else
    let got := env.avail.take (MAX_PACKET_LENGTH - write_index)
    let bytes_read := got.length
    if bytes_read > 0 then
      (.ret (write_index + bytes_read),
        { self with _nbbuffer := recvInto self._nbbuffer write_index got })
    else if !env.errnoAgain then (.thrown, self)
    else (.ret write_index, self)

/-- `NetDevice::clearNBBuffer`: `std::fill(begin, end, 0)`. -/
def NetDevice.clearNBBuffer (self : NetDevice) : NetDevice :=
  { self with _nbbuffer := fun _ => 0 }

/-- `NetDevice::NetDevice(name)`: `_host("")`, `_port(0)`, `_sockfd(0)`,
`_buffer(INIT_BUF_LENGTH)`, `stubbed(true)`.  The constructor does not initialise
`_nbbuffer` and `blocking`; the values they happen to hold are arguments. -/
def NetDevice.create (nbbuffer0 : NetBuffer) (blocking0 : Bool) : NetDevice :=
  { _host := "", _port := 0, _sockfd := 0, _buffer := List.replicate INIT_BUF_LENGTH 0,
    _nbbuffer := nbbuffer0, stubbed := true, blocking := blocking0 }

/-- `NetDevice::setStubbed`. -/
def NetDevice.setStubbed (self : NetDevice) (stubbed_ : Bool) : NetDevice :=
  { self with stubbed := stubbed_ }

/-- `NetDevice::setBlocking`: sets or clears `O_NONBLOCK` on the socket and stores the
mode in `blocking`. -/
def NetDevice.setBlocking (self : NetDevice) (_blocking : Bool) : NetDevice :=
  { self with blocking := _blocking }

/-- `NetDevice::connect(host, port, timeout, _blocking)`.  The socket options set on the
way (keepalive, receive timeout, `O_NONBLOCK`) live in the operating system; of the
object only `_host`, `_port`, `_sockfd`, `stubbed` and `blocking` change. -/
def NetDevice.connect (self : NetDevice) (host : String) (port : Int) (timeout : Int)
    (_blocking : Bool) (env : ConnEnv) : Outcome Unit × NetDevice :=
  if self.stubbed then (.ret (), self)
  else
    let self := { self with _host := host, _port := port }
    let self := { self with _sockfd := env.sock }
    if env.sock = 0 then (.thrown, { self with stubbed := true })
    else if env.conn ≠ 0 then (.thrown, { self with stubbed := true })
    else
      -- `if (timeout) setsockopt(.., SO_RCVTIMEO, ..)`
      let _rcvtimeo := decide (timeout ≠ 0)
      if !(self.isConnected ⟨env.alive, [], true⟩) then (.thrown, { self with stubbed := true })
      else (.ret (), self.setBlocking _blocking)

/-- `static_cast<std::size_t>` of an `ssize_t`. -/
def toSize (x : Int) : Nat := (x % 18446744073709551616).toNat

/-- `NetDevice::transmit(cmd, size)`; returns `bytesSend`. -/
def NetDevice.transmit (self : NetDevice) (size : Nat) (env : SendEnv) :
    Outcome Int × NetDevice :=
  if self.stubbed then (.ret 0, self)
  else if !(self.isConnected ⟨env.alive, [], true⟩) then
    (.thrown, { self with stubbed := true })
  else
    let bytesSend := toSize env.sent
    if bytesSend ≠ size then (.thrown, self)
    else (.ret bytesSend, self)

/-- `NetDevice::sendQueryNoResponse(cmd, size)`. -/
def NetDevice.sendQueryNoResponse (self : NetDevice) (size : Nat) (env : SendEnv) :
    Outcome Unit × NetDevice :=
  match self.transmit size env with
  | (.ret _, dev) => (.ret (), dev)
  | (_, dev) => (.thrown, dev)

/-- `NetDevice::receive()`: one `recv` of at most `_buffer.size()` bytes into `_buffer`;
returns what `recv` returned. -/
def NetDevice.receive (self : NetDevice) (env : RecvEnv) : Outcome Int × NetDevice :=
  if self.stubbed then (.ret 0, self)
  else if !(self.isConnected ⟨env.alive, [], true⟩) then
    (.thrown, { self with stubbed := true })
  else
    let got := env.avail.take self._buffer.length
    if got.length > 0 then
      (.ret got.length, { self with _buffer := got ++ self._buffer.drop got.length })
    else if env.eof then (.ret 0, self)
    else if !env.errnoAgain then (.thrown, self)
    else (.ret (-1), self)

/-- `NetDevice::sendQuery(cmd, size, waitReceive)` for `waitReceive == true`, the only
way the receivers call it: `transmit`, then `receive`; returns `bytesReceived`. -/
def NetDevice.sendQuery (self : NetDevice) (size : Nat) (tx : SendEnv) (rx : RecvEnv) :
    Outcome Int × NetDevice :=
  match self.transmit size tx with
  | (.ret _, dev) => dev.receive rx
  | (_, dev) => (.thrown, dev)

end net

/-- `std::copy_n(data.begin() + first, count, data.begin())`. -/
def copy_n (data : net.NetBuffer) (first count : Nat) : net.NetBuffer :=
  fun k => if k < count then data (first + k) else data k

/-- How the scan loop of a pull-frames call is left. -/
inductive ScanExit where
  /-- the `return nframes` inside the loop (fewer than a frame length left) -/
  | fragment (nframes : Nat) (frames : List Nat) (rem_data_len rem_data_start : Nat)
  /-- the loop condition `i < write_end` became false -/
  | finished (nframes : Nat) (frames : List Nat)
  /-- the iteration bound of the model was used up -/
  | outOfFuel
  deriving DecidableEq, Repr

/-- The `frames` vector when the loop is left. -/
def ScanExit.frames : ScanExit → List Nat
  | .fragment _ frames _ _ => frames
  | .finished _ frames => frames
  | .outOfFuel => []

/-- The value of `nframes` when the loop is left. -/
def ScanExit.nframes : ScanExit → Nat
  | .fragment nframes _ _ _ => nframes
  | .finished nframes _ => nframes
  | .outOfFuel => 0

/-- What a pull-frames call leaves behind: its outcome, the `frames` vector, the
`errors` out-parameter and the receiver object. -/
structure Pull (σ : Type) where
  result : Outcome Nat
  frames : List Nat
  errors : Nat
  self : σ

/-- Conversion of an `int` to `uint32_t` (`const uint32_t bytesReceived = ..sendQuery(..)`). -/
def toUInt32 (x : Int) : Nat := (x % 4294967296).toNat

/-- Conversion of a `bool` argument to an `int` parameter. -/
def boolToInt (b : Bool) : Int := if b then 1 else 0

namespace fbs_receiver

/-- `constexpr ssize_t REC_FRAME_LEN = 40u;` -/
def REC_FRAME_LEN : Nat := 40

/-- `constexpr uint8_t NET_ERROR = 0x01;` -/
def NET_ERROR : Nat := 1

/-- `enum class fbs_channels`. -/
inductive fbs_channels where
  | CHANNEL_1
  | CHANNEL_2
  deriving DecidableEq, Repr

/-- Data members of `class FbsReceiver` (the name string left out). -/
structure FbsReceiver where
  _main_socket : net.NetDevice
  _data_socket : fbs_channels → net.NetDevice
  rem_data_len : Nat
  rem_data_start : Nat

/-- The header test of `receiveFbsFrames`: `0x01 'F' 'B' 'U'` at `i`. -/
def isHeader (data : net.NetBuffer) (i : Nat) : Bool :=
  data i == 0x01 && data (i + 1) == 70 && data (i + 2) == 66 && data (i + 3) == 85

/-- The `for (size_t i = 0; i < write_end;)` loop of `receiveFbsFrames`, entered at
`i` with `nframes` and `frames`; one unit of `fuel` per evaluation of the loop condition. -/
def scanLoop (data : net.NetBuffer) (write_end : Nat) :
    Nat → Nat → Nat → List Nat → ScanExit
  | 0, _, _, _ => .outOfFuel
  | fuel + 1, i, nframes, frames =>
    if i < write_end then
      if sizeSub write_end i < REC_FRAME_LEN then
        .fragment nframes frames (sizeSub write_end i) i
      else if isHeader data i then
        scanLoop data write_end fuel (i + REC_FRAME_LEN) (nframes + 1) (frames ++ [i + 4])
      else
        scanLoop data write_end fuel (i + 1) nframes frames
    else .finished nframes frames

/-- `FbsReceiver::purgeSocket`. -/
def FbsReceiver.purgeSocket (self : FbsReceiver) (channel : fbs_channels) (env : net.SockEnv) :
    Outcome Unit × FbsReceiver :=
  if (self._data_socket channel).isStubbed then (.ret (), self)
  else
    match (self._data_socket channel).receiveNB 0 env with
    | (.ret _, dev) =>
      (.ret (), { self with
        _data_socket := Function.update self._data_socket channel dev.clearNBBuffer
        rem_data_start := 0
        rem_data_len := 0 })
    | (_, dev) =>
      (.thrown, { self with _data_socket := Function.update self._data_socket channel dev })

/-- `FbsReceiver::receiveFbsFrames`.  `frames` and `errors` are the values the
caller's variables hold on entry. -/
def FbsReceiver.receiveFbsFrames (self : FbsReceiver) (frames : List Nat)
    (channel : fbs_channels) (errors : Nat) (env : net.SockEnv) : Pull FbsReceiver :=
  let frames : List Nat := frames.take 0 -- frames.clear()
  if (self._data_socket channel).isStubbed then ⟨.ret 0, frames, errors, self⟩
  else
    let dev := self._data_socket channel
    let dev := { dev with _nbbuffer := copy_n dev._nbbuffer self.rem_data_start self.rem_data_len }
    let write_start := self.rem_data_len
    match dev.receiveNB write_start env with
    | (.ret write_end, dev) =>
      let self := { self with _data_socket := Function.update self._data_socket channel dev }
      if sizeSub write_end write_start = 0 then ⟨.ret 0, frames, errors, self⟩
      else
        match scanLoop dev._nbbuffer write_end (write_end + 1) 0 0 frames with
        | .fragment nframes frames len start =>
          ⟨.ret nframes, frames, 1, { self with rem_data_len := len, rem_data_start := start }⟩
        -- `return nframes;` (the `errors = 0;` after it is never reached)
        | .finished nframes frames => ⟨.ret nframes, frames, errors, self⟩
        | .outOfFuel => ⟨.noReturn, frames, errors, self⟩
    | (_, dev) =>
      ⟨.thrown, frames, errors,
        { self with _data_socket := Function.update self._data_socket channel dev }⟩

/-- `constexpr size_t IDN_ACK_SIZE = 29;` -/
def IDN_ACK_SIZE : Nat := 29

/-- `FbsReceiver::FbsReceiver(name)`; the arguments are what the three endpoints hold in
the members their constructor leaves uninitialised. -/
def FbsReceiver.create (nbMain nb1 nb2 : net.NetBuffer) (blMain bl1 bl2 : Bool) :
    FbsReceiver :=
  { rem_data_len := 0
    rem_data_start := 0
    _main_socket := net.NetDevice.create nbMain blMain
    _data_socket := fun channel =>
      match channel with
      | .CHANNEL_1 => net.NetDevice.create nb1 bl1
      | .CHANNEL_2 => net.NetDevice.create nb2 bl2 }

/-- `FbsReceiver::sendIdnQuery`: the query `"*IDN?" + NEWLINE` has 5 + 2 bytes; returns the
whole of `_buffer` as a string. -/
def FbsReceiver.sendIdnQuery (self : FbsReceiver) (tx : net.SendEnv) (rx : net.RecvEnv) :
    Outcome (List Nat) × FbsReceiver :=
  match self._main_socket.sendQuery (5 + 2) tx rx with
  | (.ret r, dev) =>
    let bytesReceived := toUInt32 r
    if bytesReceived < IDN_ACK_SIZE || bytesReceived == 0 then
      (.thrown, { self with _main_socket := dev })
    else (.ret dev._buffer, { self with _main_socket := dev })
  | (_, dev) => (.thrown, { self with _main_socket := dev })

/-- `FbsReceiver::queryAcqAsync`; `alive` answers the `isConnected()` of the first line,
`tx` the `transmit` inside `sendQueryNoResponse`.  The query `":ACQ?" + NEWLINE` has
5 + 2 bytes. -/
def FbsReceiver.queryAcqAsync (self : FbsReceiver) (alive : Bool) (tx : net.SendEnv) :
    Nat × FbsReceiver :=
  if !(self._main_socket.isConnected ⟨alive, [], true⟩) || self._main_socket.isStubbed then
    (NET_ERROR, self)
  else
    let bytes_send : Nat := 0
    match self._main_socket.sendQueryNoResponse (5 + 2) tx with
    | (.ret _, dev) =>
      if bytes_send == 0 then (NET_ERROR, { self with _main_socket := dev })
      else (0, { self with _main_socket := dev })
    | (_, dev) => (NET_ERROR, { self with _main_socket := dev })

/-- `FbsReceiver::readAcqAsync(acq)`; `acq` is the value the caller's pair holds on
entry, `'1'` is 49. -/
def FbsReceiver.readAcqAsync (self : FbsReceiver) (acq : Bool × Bool) (env : net.SockEnv) :
    Outcome Nat × (Bool × Bool) × FbsReceiver :=
  match self._main_socket.receiveNB 0 env with
  | (.ret bytes_read, dev) =>
    let data := dev._nbbuffer
    if bytes_read != 4 then (.ret NET_ERROR, (false, false), { self with _main_socket := dev })
    else (.ret 0, (data 0 == 49, data 2 == 49), { self with _main_socket := dev })
  | (_, dev) => (.thrown, acq, { self with _main_socket := dev })

/-- `FbsReceiver::connect(hostname, main_port)`: `connect(hostname, main_port, 5)` with
`blocking` at its default `true`, then `setBlocking(false)`. -/
def FbsReceiver.connect (self : FbsReceiver) (hostname : String) (main_port : Int)
    (env : net.ConnEnv) : Outcome Unit × FbsReceiver :=
  match (self._main_socket.setStubbed false).connect hostname main_port 5 true env with
  | (.ret _, dev) => (.ret (), { self with _main_socket := dev.setBlocking false })
  | (_, dev) => (.thrown, { self with _main_socket := dev })

/-- `FbsReceiver::connect_channel(hostname, channel, data_port)`.  The call is
`connect(hostname, data_port, false)` against the declaration
`connect(hostname, port, int timeout = 0, bool blocking = true)`: `false` is the third
argument, `timeout`, and `blocking` takes its default. -/
def FbsReceiver.connect_channel (self : FbsReceiver) (hostname : String)
    (channel : fbs_channels) (data_port : Int) (env : net.ConnEnv) :
    Outcome Unit × FbsReceiver :=
  match ((self._data_socket channel).setStubbed false).connect hostname data_port
      (boolToInt false) true env with
  | (.ret _, dev) =>
    (.ret (), { self with _data_socket := Function.update self._data_socket channel dev })
  | (_, dev) =>
    (.thrown, { self with _data_socket := Function.update self._data_socket channel dev })

end fbs_receiver

namespace lpps_receiver

/-- `constexpr ssize_t LPPS_FRAME_LEN = sizeof(lpps_frame);` with `#pragma pack(push, 1)`:
`uint64_t`, four `uint32_t`, two `uint64_t`. -/
def LPPS_FRAME_LEN : Nat := 8 + 4 + 4 + 4 + 4 + 8 + 8

/-- `constexpr uint8_t NET_ERROR = 0x01;` -/
def NET_ERROR : Nat := 1

/-- `enum class lpps_channels`. -/
inductive lpps_channels where
  | CHANNEL_1
  | CHANNEL_2
  deriving DecidableEq, Repr

/-- Data members of `class LppsReceiver` (the name string left out). -/
structure LppsReceiver where
  async_task : Bool
  _main_socket : net.NetDevice
  _data_socket : lpps_channels → net.NetDevice
  rem_data_len : Nat
  rem_data_start : Nat

/-- The header test of `receiveLppsFrames`: `0x01 'L' 'P' 'P' 'S'` at `i`. -/
def isHeader (data : net.NetBuffer) (i : Nat) : Bool :=
  data i == 0x01 && data (i + 1) == 76 && data (i + 2) == 80 && data (i + 3) == 80
    && data (i + 4) == 83

/-- The `for (size_t i = 0; i < write_end;)` loop of `receiveLppsFrames`, entered at
`i` with `nframes` and `frames`; one unit of `fuel` per evaluation of the loop condition.
The first `push_back` (LPPS.cpp:166) comes before the header test. -/
def scanLoop (data : net.NetBuffer) (write_end : Nat) :
    Nat → Nat → Nat → List Nat → ScanExit
  | 0, _, _, _ => .outOfFuel
  | fuel + 1, i, nframes, frames =>
    if i < write_end then
      if sizeSub write_end i < LPPS_FRAME_LEN then
        .fragment nframes frames (sizeSub write_end i) i
      else
        let frames := frames ++ [i]
        if isHeader data i then
          scanLoop data write_end fuel (i + LPPS_FRAME_LEN) (nframes + 1) (frames ++ [i])
        else
          scanLoop data write_end fuel (i + 1) nframes frames
    else .finished nframes frames

/-- `LppsReceiver::purgeSocket`. -/
def LppsReceiver.purgeSocket (self : LppsReceiver) (channel : lpps_channels)
    (env : net.SockEnv) : Outcome Unit × LppsReceiver :=
  if (self._data_socket channel).isStubbed then (.ret (), self)
  else
    match (self._data_socket channel).receiveNB 0 env with
    | (.ret _, dev) =>
      (.ret (), { self with
        _data_socket := Function.update self._data_socket channel dev.clearNBBuffer
        rem_data_start := 0
        rem_data_len := 0 })
    | (_, dev) =>
      (.thrown, { self with _data_socket := Function.update self._data_socket channel dev })

/-- `LppsReceiver::receiveLppsFrames`.  `frames` and `errors` are the values the
caller's variables hold on entry. -/
def LppsReceiver.receiveLppsFrames (self : LppsReceiver) (frames : List Nat)
    (channel : lpps_channels) (errors : Nat) (env : net.SockEnv) : Pull LppsReceiver :=
  let frames : List Nat := frames.take 0 -- frames.clear()
  if (self._data_socket channel).isStubbed then ⟨.ret 0, frames, errors, self⟩
  else
    let dev := self._data_socket channel
    let dev := { dev with _nbbuffer := copy_n dev._nbbuffer self.rem_data_start self.rem_data_len }
    let write_start := self.rem_data_len
    match dev.receiveNB write_start env with
    | (.ret write_end, dev) =>
      let self := { self with _data_socket := Function.update self._data_socket channel dev }
      let frames : List Nat := frames.take 0 -- frames.clear()
      if sizeSub write_end write_start = 0 then ⟨.ret 0, frames, errors, self⟩
      else
        match scanLoop dev._nbbuffer write_end (write_end + 1) 0 0 frames with
        | .fragment nframes frames len start =>
          ⟨.ret nframes, frames, 1, { self with rem_data_len := len, rem_data_start := start }⟩
        | .finished nframes frames => ⟨.ret nframes, frames, errors, self⟩
        | .outOfFuel => ⟨.noReturn, frames, errors, self⟩
    | (_, dev) =>
      ⟨.thrown, frames, errors,
        { self with _data_socket := Function.update self._data_socket channel dev }⟩

/-- `constexpr size_t IDN_ACK_SIZE = 29;` -/
def IDN_ACK_SIZE : Nat := 29

/-- `LppsReceiver::LppsReceiver(name)`; the arguments are what the three endpoints hold
in the members their constructor leaves uninitialised. -/
def LppsReceiver.create (nbMain nb1 nb2 : net.NetBuffer) (blMain bl1 bl2 : Bool) :
    LppsReceiver :=
  { rem_data_len := 0
    rem_data_start := 0
    async_task := false
    _main_socket := net.NetDevice.create nbMain blMain
    _data_socket := fun channel =>
      match channel with
      | .CHANNEL_1 => net.NetDevice.create nb1 bl1
      | .CHANNEL_2 => net.NetDevice.create nb2 bl2 }

/-- `LppsReceiver::sendIdnQuery`: the query `"*IDN?" + NEWLINE` has 5 + 2 bytes; returns
the whole of `_buffer` as a string. -/
def LppsReceiver.sendIdnQuery (self : LppsReceiver) (tx : net.SendEnv) (rx : net.RecvEnv) :
    Outcome (List Nat) × LppsReceiver :=
  match self._main_socket.sendQuery (5 + 2) tx rx with
  | (.ret r, dev) =>
    let bytesReceived := toUInt32 r
    if bytesReceived < IDN_ACK_SIZE || bytesReceived == 0 then
      (.thrown, { self with _main_socket := dev })
    else (.ret dev._buffer, { self with _main_socket := dev })
  | (_, dev) => (.thrown, { self with _main_socket := dev })

/-- `LppsReceiver::queryAcqAsync`; `alive` answers the `isConnected()` of the guard, `tx`
the `transmit` inside `sendQueryNoResponse`. -/
def LppsReceiver.queryAcqAsync (self : LppsReceiver) (alive : Bool) (tx : net.SendEnv) :
    Nat × LppsReceiver :=
  if !(self._main_socket.isConnected ⟨alive, [], true⟩) || self._main_socket.isStubbed then
    (NET_ERROR, self)
  else
    let bytes_send : Nat := 0
    match self._main_socket.sendQueryNoResponse (5 + 2) tx with
    | (.ret _, dev) =>
      if bytes_send == 0 then (NET_ERROR, { self with _main_socket := dev })
      else (0, { self with _main_socket := dev, async_task := true })
    | (_, dev) => (NET_ERROR, { self with _main_socket := dev })

/-- `LppsReceiver::readAcqAsync(acq)`; `alive` answers the `isConnected()` of the guard,
`env` the `receiveNB(0)`; an exception of `receiveNB` is caught. -/
def LppsReceiver.readAcqAsync (self : LppsReceiver) (acq : Bool × Bool) (alive : Bool)
    (env : net.SockEnv) : Nat × (Bool × Bool) × LppsReceiver :=
  if !(self._main_socket.isConnected ⟨alive, [], true⟩) || self._main_socket.isStubbed then
    (NET_ERROR, acq, self)
  else
    match self._main_socket.receiveNB 0 env with
    | (.ret bytes_read, dev) =>
      let data := dev._nbbuffer
      if bytes_read != 4 then (NET_ERROR, (false, false), { self with _main_socket := dev })
      else (0, (data 0 == 49, data 2 == 49),
        { self with _main_socket := dev, async_task := false })
    | (_, dev) => (NET_ERROR, acq, { self with _main_socket := dev })

/-- `LppsReceiver::connect(hostname, main_port)`: `connect(hostname, main_port)` with
`timeout` and `blocking` at their defaults `0` and `true`. -/
def LppsReceiver.connect (self : LppsReceiver) (hostname : String) (main_port : Int)
    (env : net.ConnEnv) : Outcome Unit × LppsReceiver :=
  match (self._main_socket.setStubbed false).connect hostname main_port 0 true env with
  | (.ret _, dev) => (.ret (), { self with _main_socket := dev })
  | (_, dev) => (.thrown, { self with _main_socket := dev })

/-- `LppsReceiver::connect_channel(hostname, channel, data_port)`; the call is
`connect(hostname, data_port, false)`, as in the FBS receiver. -/
def LppsReceiver.connect_channel (self : LppsReceiver) (hostname : String)
    (channel : lpps_channels) (data_port : Int) (env : net.ConnEnv) :
    Outcome Unit × LppsReceiver :=
  match ((self._data_socket channel).setStubbed false).connect hostname data_port
      (boolToInt false) true env with
  | (.ret _, dev) =>
    (.ret (), { self with _data_socket := Function.update self._data_socket channel dev })
  | (_, dev) =>
    (.thrown, { self with _data_socket := Function.update self._data_socket channel dev })

end lpps_receiver

/-! ## Concrete inputs

Receivers whose data channels are connected (`connect_channel` clears `stubbed`), and
byte sequences used to evaluate the calls. -/

/-- A connected data endpoint with a zeroed stream buffer. -/
def connectedDevice : net.NetDevice :=
  { _host := "192.168.0.10", _port := 5031, _sockfd := 3,
    _buffer := List.replicate net.INIT_BUF_LENGTH 0, _nbbuffer := fun _ => 0,
    stubbed := false, blocking := false }

/-- An FBS receiver with both data channels connected and empty carryover. -/
def fbsReady : fbs_receiver.FbsReceiver :=
  { _main_socket := connectedDevice, _data_socket := fun _ => connectedDevice,
    rem_data_len := 0, rem_data_start := 0 }

/-- An LPPS receiver with both data channels connected and empty carryover. -/
def lppsReady : lpps_receiver.LppsReceiver :=
  { async_task := false, _main_socket := connectedDevice,
    _data_socket := fun _ => connectedDevice, rem_data_len := 0, rem_data_start := 0 }

/-- A valid 40-byte FBS record: `0x01 'F' 'B' 'U'` and 36 payload bytes. -/
def fbsFrame : List Nat := [0x01, 70, 66, 85] ++ List.replicate 36 7

/-- A valid 40-byte LPPS record: `0x01 'L' 'P' 'P' 'S'` and 35 more bytes. -/
def lppsFrame : List Nat := [0x01, 76, 80, 80, 83] ++ List.replicate 35 7

/-- A stream buffer that starts with one FBS frame and is zero after it. -/
def fbsFrameBuffer : net.NetBuffer := fun k => fbsFrame.getD k 0

/-- Successive `receiveFbsFrames` calls on one channel, the `k`-th call finding the
`k`-th chunk on a live socket (an empty chunk: `recv` would block); the outcome and the
frames of each call, in call order. -/
def fbsPulls (self : fbs_receiver.FbsReceiver) (channel : fbs_receiver.fbs_channels) :
    List (List Nat) → List (Outcome Nat × List Nat)
  | [] => []
  | chunk :: rest =>
    (((self.receiveFbsFrames [] channel 0 ⟨true, chunk, true⟩).result,
      (self.receiveFbsFrames [] channel 0 ⟨true, chunk, true⟩).frames) ::
      fbsPulls (self.receiveFbsFrames [] channel 0 ⟨true, chunk, true⟩).self channel rest)

/-- Successive `receiveLppsFrames` calls on one channel, as `fbsPulls`. -/
def lppsPulls (self : lpps_receiver.LppsReceiver) (channel : lpps_receiver.lpps_channels) :
    List (List Nat) → List (Outcome Nat × List Nat)
  | [] => []
  | chunk :: rest =>
    (((self.receiveLppsFrames [] channel 0 ⟨true, chunk, true⟩).result,
      (self.receiveLppsFrames [] channel 0 ⟨true, chunk, true⟩).frames) ::
      lppsPulls (self.receiveLppsFrames [] channel 0 ⟨true, chunk, true⟩).self channel rest)

/-- The first `n` bytes of the stream buffer of an FBS data channel. -/
def fbsWindow (self : fbs_receiver.FbsReceiver) (channel : fbs_receiver.fbs_channels)
    (n : Nat) : List Nat :=
  (List.range n).map (self._data_socket channel)._nbbuffer

/-- FBS receiver after a read of 45 bytes: one frame and the first 5 bytes of the next. -/
def fbsAfter45 : fbs_receiver.FbsReceiver :=
  (fbsReady.receiveFbsFrames [] .CHANNEL_1 0 ⟨true, fbsFrame ++ fbsFrame.take 5, true⟩).self

/-- LPPS receiver after a read of 45 bytes: one frame and the first 5 bytes of the next. -/
def lppsAfter45 : lpps_receiver.LppsReceiver :=
  (lppsReady.receiveLppsFrames [] .CHANNEL_1 0 ⟨true, lppsFrame ++ lppsFrame.take 5, true⟩).self

/-- FBS receiver after a read of 40 bytes: one noise byte and the first 39 bytes of a
frame. -/
def fbsAfterNoise : fbs_receiver.FbsReceiver :=
  (fbsReady.receiveFbsFrames [] .CHANNEL_1 0 ⟨true, [9] ++ fbsFrame.take 39, true⟩).self

/-- The receiver `fbsAfterNoise` after one more call during which `recv` would block. -/
def fbsAfterIdle : fbs_receiver.FbsReceiver :=
  (fbsAfterNoise.receiveFbsFrames [] .CHANNEL_1 0 ⟨true, [], true⟩).self

/-- FBS receiver after CHANNEL_1 has read 41 bytes that hold no frame. -/
def fbsAfterChannel1 : fbs_receiver.FbsReceiver :=
  (fbsReady.receiveFbsFrames [] .CHANNEL_1 0 ⟨true, List.replicate 41 9, true⟩).self

/-- A freshly constructed FBS receiver (all endpoints stubbed), buffers zeroed. -/
def fbsFresh : fbs_receiver.FbsReceiver :=
  fbs_receiver.FbsReceiver.create (fun _ => 0) (fun _ => 0) (fun _ => 0) false false false

/-- A freshly constructed LPPS receiver (all endpoints stubbed), buffers zeroed. -/
def lppsFresh : lpps_receiver.LppsReceiver :=
  lpps_receiver.LppsReceiver.create (fun _ => 0) (fun _ => 0) (fun _ => 0) false false false

/-- An LPPS receiver with a connected control endpoint and `async_task` set. -/
def lppsAwaiting : lpps_receiver.LppsReceiver :=
  { lppsReady with async_task := true }

/-- One call on the stream interface of an FBS receiver, with what the operating system
answers during it. -/
inductive FbsCall where
  | connect_channel (hostname : String) (channel : fbs_receiver.fbs_channels)
      (data_port : Int) (env : net.ConnEnv)
  | receiveFbsFrames (frames : List Nat) (channel : fbs_receiver.fbs_channels)
      (errors : Nat) (env : net.SockEnv)
  | purgeSocket (channel : fbs_receiver.fbs_channels) (env : net.SockEnv)

/-- The receiver object after one call (whether the call returned or threw). -/
def FbsCall.apply (self : fbs_receiver.FbsReceiver) : FbsCall → fbs_receiver.FbsReceiver
  | .connect_channel hostname channel data_port env =>
    (self.connect_channel hostname channel data_port env).2
  | .receiveFbsFrames frames channel errors env =>
    (self.receiveFbsFrames frames channel errors env).self
  | .purgeSocket channel env => (self.purgeSocket channel env).2

/-- One call on the stream interface of an LPPS receiver, with what the operating system
answers during it. -/
inductive LppsCall where
  | connect_channel (hostname : String) (channel : lpps_receiver.lpps_channels)
      (data_port : Int) (env : net.ConnEnv)
  | receiveLppsFrames (frames : List Nat) (channel : lpps_receiver.lpps_channels)
      (errors : Nat) (env : net.SockEnv)
  | purgeSocket (channel : lpps_receiver.lpps_channels) (env : net.SockEnv)

/-- The receiver object after one call (whether the call returned or threw). -/
def LppsCall.apply (self : lpps_receiver.LppsReceiver) : LppsCall → lpps_receiver.LppsReceiver
  | .connect_channel hostname channel data_port env =>
    (self.connect_channel hostname channel data_port env).2
  | .receiveLppsFrames frames channel errors env =>
    (self.receiveLppsFrames frames channel errors env).self
  | .purgeSocket channel env => (self.purgeSocket channel env).2

/-! ## Buffer accesses

The relocation copy and the scan loops again, with the buffer indices they touch and
the number of loop iterations written down next to what they compute. -/

/-- The indices `std::copy_n(data.begin() + first, count, data.begin())` reads:
`first + k` for `k < count`. -/
def copy_n_reads (first count : Nat) : List Nat :=
  (List.range count).map (fun k => first + k)

/-- The indices `std::copy_n(data.begin() + first, count, data.begin())` writes:
`k` for `k < count`. -/
def copy_n_writes (count : Nat) : List Nat := List.range count

/-- A run of a scan loop: how it is left, how many times the loop body was entered, and
the buffer indices the header tests read, in order. -/
structure ScanTrace where
  exit : ScanExit
  iterations : Nat
  reads : List Nat

/-- The indices the header test of `receiveFbsFrames` reads at `i`: `&&` evaluates its
operands left to right and stops at the first that is false. -/
def fbs_receiver.headerReads (data : net.NetBuffer) (i : Nat) : List Nat :=
  if data i == 0x01 then
    if data (i + 1) == 70 then
      if data (i + 2) == 66 then [i, i + 1, i + 2, i + 3]
      else [i, i + 1, i + 2]
    else [i, i + 1]
  else [i]

/-- The loop of `receiveFbsFrames` as in `fbs_receiver.scanLoop`, together with its
iteration count and the indices it reads. -/
def fbs_receiver.scanLoopTrace (data : net.NetBuffer) (write_end : Nat) :
    Nat → Nat → Nat → List Nat → ScanTrace
  | 0, _, _, _ => ⟨.outOfFuel, 0, []⟩
  | fuel + 1, i, nframes, frames =>
    if i < write_end then
      if sizeSub write_end i < fbs_receiver.REC_FRAME_LEN then
        ⟨.fragment nframes frames (sizeSub write_end i) i, 1, []⟩
      else if fbs_receiver.isHeader data i then
        ⟨(fbs_receiver.scanLoopTrace data write_end fuel (i + fbs_receiver.REC_FRAME_LEN)
            (nframes + 1) (frames ++ [i + 4])).exit,
          (fbs_receiver.scanLoopTrace data write_end fuel (i + fbs_receiver.REC_FRAME_LEN)
            (nframes + 1) (frames ++ [i + 4])).iterations + 1,
          fbs_receiver.headerReads data i ++
            (fbs_receiver.scanLoopTrace data write_end fuel (i + fbs_receiver.REC_FRAME_LEN)
              (nframes + 1) (frames ++ [i + 4])).reads⟩
      else
        ⟨(fbs_receiver.scanLoopTrace data write_end fuel (i + 1) nframes frames).exit,
          (fbs_receiver.scanLoopTrace data write_end fuel (i + 1) nframes frames).iterations + 1,
          fbs_receiver.headerReads data i ++
            (fbs_receiver.scanLoopTrace data write_end fuel (i + 1) nframes frames).reads⟩
    else ⟨.finished nframes frames, 0, []⟩

/-- The indices the header test of `receiveLppsFrames` reads at `i`: `&&` evaluates its
operands left to right and stops at the first that is false. -/
def lpps_receiver.headerReads (data : net.NetBuffer) (i : Nat) : List Nat :=
  if data i == 0x01 then
    if data (i + 1) == 76 then
      if data (i + 2) == 80 then
        if data (i + 3) == 80 then [i, i + 1, i + 2, i + 3, i + 4]
        else [i, i + 1, i + 2, i + 3]
      else [i, i + 1, i + 2]
    else [i, i + 1]
  else [i]

/-- The loop of `receiveLppsFrames` as in `lpps_receiver.scanLoop`, together with its
iteration count and the indices it reads. -/
def lpps_receiver.scanLoopTrace (data : net.NetBuffer) (write_end : Nat) :
    Nat → Nat → Nat → List Nat → ScanTrace
  | 0, _, _, _ => ⟨.outOfFuel, 0, []⟩
  | fuel + 1, i, nframes, frames =>
    if i < write_end then
      if sizeSub write_end i < lpps_receiver.LPPS_FRAME_LEN then
        ⟨.fragment nframes frames (sizeSub write_end i) i, 1, []⟩
      else if lpps_receiver.isHeader data i then
        ⟨(lpps_receiver.scanLoopTrace data write_end fuel (i + lpps_receiver.LPPS_FRAME_LEN)
            (nframes + 1) (frames ++ [i] ++ [i])).exit,
          (lpps_receiver.scanLoopTrace data write_end fuel (i + lpps_receiver.LPPS_FRAME_LEN)
            (nframes + 1) (frames ++ [i] ++ [i])).iterations + 1,
          lpps_receiver.headerReads data i ++
            (lpps_receiver.scanLoopTrace data write_end fuel (i + lpps_receiver.LPPS_FRAME_LEN)
              (nframes + 1) (frames ++ [i] ++ [i])).reads⟩
      else
        ⟨(lpps_receiver.scanLoopTrace data write_end fuel (i + 1) nframes
            (frames ++ [i])).exit,
          (lpps_receiver.scanLoopTrace data write_end fuel (i + 1) nframes
            (frames ++ [i])).iterations + 1,
          lpps_receiver.headerReads data i ++
            (lpps_receiver.scanLoopTrace data write_end fuel (i + 1) nframes
              (frames ++ [i])).reads⟩
    else ⟨.finished nframes frames, 0, []⟩

open net

/-! ## Lemmas on the endpoint and on the FBS scan loop -/

theorem sizeSub_of_le (a b : Nat) (h : b ≤ a) (ha : a ≤ 8000) : sizeSub a b = a - b := by
  unfold sizeSub; omega

theorem receiveNB_data (d : NetDevice) (wi : Nat) (env : SockEnv)
    (hs : d.stubbed = false) (ha : env.alive = true) (hne : 0 < env.avail.length)
    (hfit : wi + env.avail.length ≤ MAX_PACKET_LENGTH) :
    d.receiveNB wi env
      = (.ret (wi + env.avail.length),
          { d with _nbbuffer := recvInto d._nbbuffer wi env.avail }) := by
  have ht : env.avail.take (MAX_PACKET_LENGTH - wi) = env.avail :=
    List.take_of_length_le (by omega)
  simp [NetDevice.receiveNB, NetDevice.isConnected, hs, ha, ht, hne]

theorem recvInto_zero (buf : NetBuffer) (w : List Nat) (k : Nat) (hk : k < w.length) :
    recvInto buf 0 w k = w.getD k 0 := by
  simp [recvInto, hk]

open fbs_receiver in
theorem fbs_receiver.scanLoop_frames (data : NetBuffer) (we : Nat) (hwe : we ≤ 8000) :
    ∀ (m fuel i n : Nat) (fr : List Nat), we = i + 40 * m →
      (∀ j < m, isHeader data (i + 40 * j) = true) → m < fuel →
      scanLoop data we fuel i n fr
        = .finished (n + m) (fr ++ (List.range m).map (fun j => i + 40 * j + 4)) := by
  intro m
  induction m with
  | zero =>
    intro fuel i n fr h _ hf
    obtain ⟨f, rfl⟩ : ∃ f, fuel = f + 1 := ⟨fuel - 1, by omega⟩
    simp [scanLoop, h]
  | succ m ih =>
    intro fuel i n fr h hh hf
    obtain ⟨f, rfl⟩ : ∃ f, fuel = f + 1 := ⟨fuel - 1, by omega⟩
    have h0 : isHeader data i = true := by simpa using hh 0 (by omega)
    have hlt : i < we := by omega
    have hs : ¬ sizeSub we i < REC_FRAME_LEN := by
      rw [sizeSub_of_le we i (by omega) hwe]; simp only [REC_FRAME_LEN]; omega
    rw [scanLoop]
    simp only [hlt, hs, h0, if_true, if_false]
    rw [ih f (i + REC_FRAME_LEN) (n + 1) (fr ++ [i + 4]) (by simp only [REC_FRAME_LEN]; omega)
      (by
        intro j hj
        have := hh (j + 1) (by omega)
        simpa [REC_FRAME_LEN, Nat.mul_add, Nat.add_assoc, Nat.add_comm, Nat.add_left_comm] using this)
      (by omega)]
    simp only [List.range_succ_eq_map, List.map_cons, List.map_map, List.append_assoc,
      List.singleton_append, REC_FRAME_LEN]
    congr 1
    · omega
    · congr 2
      apply List.map_congr_left
      intro j _
      simp only [Function.comp, Nat.succ_eq_add_one]
      omega

theorem length_flatten_records (records : List (List Nat))
    (hrec : ∀ r ∈ records, r.length = 40) :
    records.flatten.length = 40 * records.length := by
  induction records with
  | nil => simp
  | cons r rs ih =>
    have h1 := hrec r (by simp)
    have h2 := ih (fun x hx => hrec x (by simp [hx]))
    simp only [List.flatten_cons, List.length_append, List.length_cons, h1, h2]
    omega

theorem getD_flatten_records (records : List (List Nat))
    (hrec : ∀ r ∈ records, r.length = 40 ∧ r.take 4 = [0x01, 70, 66, 85]) :
    ∀ j < records.length, ∀ t < 4,
      records.flatten.getD (40 * j + t) 0 = [0x01, 70, 66, 85].getD t 0 := by
  induction records with
  | nil => intro j hj; simp at hj
  | cons r rs ih =>
    intro j hj t ht
    obtain ⟨hl, hh⟩ := hrec r (by simp)
    cases j with
    | zero =>
      rw [List.flatten_cons, List.getD_append _ _ _ _ (by omega), ← hh]
      simp only [Nat.mul_zero, Nat.zero_add, List.getD_eq_getElem?_getD, List.getElem?_take, ht,
        if_true]
    | succ j =>
      rw [List.flatten_cons, List.getD_append_right _ _ _ _ (by omega)]
      have := ih (fun x hx => hrec x (by simp [hx])) j (by simpa using hj) t ht
      rw [← this]
      congr 1
      omega

open fbs_receiver in
theorem fbs_receiver.isHeader_congr (d d' : NetBuffer) (i : Nat)
    (h : ∀ t < 4, d (i + t) = d' (i + t)) : isHeader d i = isHeader d' i := by
  have h0 := h 0 (by omega)
  have h1 := h 1 (by omega)
  have h2 := h 2 (by omega)
  have h3 := h 3 (by omega)
  simp only [Nat.add_zero] at h0
  simp only [isHeader, h0, h1, h2, h3]


open fbs_receiver in
theorem fbs_receiver.receiveFbsFrames_data (self : FbsReceiver) (frames0 : List Nat)
    (channel : fbs_channels) (errors : Nat) (env : SockEnv)
    (hstub : (self._data_socket channel).stubbed = false) (ha : env.alive = true)
    (hne : 0 < env.avail.length)
    (hfit : self.rem_data_len + env.avail.length ≤ MAX_PACKET_LENGTH) :
    self.receiveFbsFrames frames0 channel errors env =
      (let data := recvInto (copy_n (self._data_socket channel)._nbbuffer self.rem_data_start
          self.rem_data_len) self.rem_data_len env.avail
       let write_end := self.rem_data_len + env.avail.length
       let self1 : FbsReceiver := { self with
          _data_socket := Function.update self._data_socket channel
            { self._data_socket channel with _nbbuffer := data } }
       match scanLoop data write_end (write_end + 1) 0 0 [] with
       | .fragment nframes frames len start =>
         ⟨.ret nframes, frames, 1, { self1 with rem_data_len := len, rem_data_start := start }⟩
       | .finished nframes frames => ⟨.ret nframes, frames, errors, self1⟩
       | .outOfFuel => ⟨.noReturn, [], errors, self1⟩) := by
  have ht : env.avail.take (MAX_PACKET_LENGTH - self.rem_data_len) = env.avail :=
    List.take_of_length_le (by omega)
  have hz : sizeSub (self.rem_data_len + env.avail.length) self.rem_data_len ≠ 0 := by
    rw [sizeSub_of_le _ _ (by omega) (by simpa [MAX_PACKET_LENGTH] using hfit)]; omega
  simp only [FbsReceiver.receiveFbsFrames, NetDevice.receiveNB, NetDevice.isConnected,
    NetDevice.isStubbed, hstub, ha, ht, hne, hz]
  simp [hstub, hz]

open fbs_receiver in
theorem fbs_receiver.scanLoop_header (data : NetBuffer) (we fuel i n : Nat) (fr : List Nat)
    (hwe : we ≤ 8000) (hi : i + 40 ≤ we) (hh : isHeader data i = true) :
    scanLoop data we (fuel + 1) i n fr
      = scanLoop data we fuel (i + 40) (n + 1) (fr ++ [i + 4]) := by
  have hlt : i < we := by omega
  have hs : ¬ sizeSub we i < 40 := by
    rw [sizeSub_of_le we i (by omega) hwe]; omega
  rw [scanLoop]
  simp only [REC_FRAME_LEN, hlt, hs, hh, if_true, if_false]

open fbs_receiver in
theorem fbs_receiver.scanLoop_skip (data : NetBuffer) (we fuel i n : Nat) (fr : List Nat)
    (hwe : we ≤ 8000) (hi : i + 40 ≤ we) (hh : isHeader data i = false) :
    scanLoop data we (fuel + 1) i n fr = scanLoop data we fuel (i + 1) n fr := by
  have hlt : i < we := by omega
  have hs : ¬ sizeSub we i < 40 := by
    rw [sizeSub_of_le we i (by omega) hwe]; omega
  rw [scanLoop]
  simp [REC_FRAME_LEN, hlt, hs, hh]

open fbs_receiver in
theorem fbs_receiver.scanLoop_fragment (data : NetBuffer) (we fuel i n : Nat) (fr : List Nat)
    (hwe : we ≤ 8000) (hi : i < we) (hshort : we < i + 40) :
    scanLoop data we (fuel + 1) i n fr = .fragment n fr (we - i) i := by
  have hs : sizeSub we i < 40 := by
    rw [sizeSub_of_le we i (by omega) hwe]; omega
  rw [scanLoop]
  simp only [REC_FRAME_LEN, hi, if_true, sizeSub_of_le we i (by omega) hwe]
  rw [if_pos (by omega)]

open fbs_receiver in
theorem fbs_receiver.scanLoop_finished (data : NetBuffer) (we fuel i n : Nat) (fr : List Nat)
    (hi : we ≤ i) :
    scanLoop data we (fuel + 1) i n fr = .finished n fr := by
  have hlt : ¬ i < we := by omega
  rw [scanLoop]
  simp only [hlt, if_false]

open fbs_receiver in
/-- What the FBS loop has added when it is left: with `we - i < fuel` the loop is left by
one of its two exits, the references it appended are all at or above `i + 4`, any two
of them are at least 40 apart, and `nframes` grew by their number. -/
theorem fbs_receiver.scanLoop_exit (data : NetBuffer) (we : Nat) :
    ∀ (fuel i n : Nat) (fr : List Nat), we - i < fuel →
      ∃ ex : List Nat, (∀ f ∈ ex, i + 4 ≤ f) ∧ List.Pairwise (fun a b => a + 40 ≤ b) ex ∧
        (scanLoop data we fuel i n fr).frames = fr ++ ex ∧
        (scanLoop data we fuel i n fr).nframes = n + ex.length ∧
        scanLoop data we fuel i n fr ≠ .outOfFuel := by
  intro fuel
  induction fuel with
  | zero => intro i n fr h; omega
  | succ fuel ih =>
    intro i n fr h
    rw [scanLoop]
    by_cases hlt : i < we
    · by_cases hs : sizeSub we i < REC_FRAME_LEN
      · exact ⟨[], by simp, by simp, by simp [hlt, hs, ScanExit.frames],
          by simp [hlt, hs, ScanExit.nframes], by simp [hlt, hs]⟩
      · by_cases hh : isHeader data i = true
        · obtain ⟨ex, h1, h2, h3, h4, h5⟩ :=
            ih (i + REC_FRAME_LEN) (n + 1) (fr ++ [i + 4]) (by simp only [REC_FRAME_LEN]; omega)
          refine ⟨(i + 4) :: ex, ?_, ?_, ?_, ?_, ?_⟩
          · intro f hf
            rcases List.mem_cons.1 hf with rfl | hf
            · omega
            · have := h1 f hf; simp only [REC_FRAME_LEN] at this; omega
          · refine List.pairwise_cons.2 ⟨?_, h2⟩
            intro b hb
            have := h1 b hb; simp only [REC_FRAME_LEN] at this; omega
          · simp only [hlt, hs, hh, if_true, if_false, h3, List.append_assoc,
              List.singleton_append]
          · simp only [hlt, hs, hh, if_true, if_false, h4, List.length_cons]; omega
          · simpa only [hlt, hs, hh, if_true, if_false] using h5
        · obtain ⟨ex, h1, h2, h3, h4, h5⟩ := ih (i + 1) n fr (by omega)
          have hh' : isHeader data i = false := by simpa using hh
          refine ⟨ex, ?_, h2, ?_, ?_, ?_⟩
          · intro f hf; have := h1 f hf; omega
          · simp only [hlt, hs, hh', if_true, if_false, Bool.false_eq_true, h3]
          · simp only [hlt, hs, hh', if_true, if_false, Bool.false_eq_true, h4]
          · simpa only [hlt, hs, hh', if_true, if_false, Bool.false_eq_true] using h5
    · exact ⟨[], by simp, by simp, by simp [hlt, ScanExit.frames],
        by simp [hlt, ScanExit.nframes], by simp [hlt]⟩

open fbs_receiver in
theorem fbs_receiver.receiveFbsFrames_data_frames (self : FbsReceiver) (frames0 : List Nat)
    (channel : fbs_channels) (errors : Nat) (env : SockEnv)
    (hstub : (self._data_socket channel).stubbed = false) (ha : env.alive = true)
    (hne : 0 < env.avail.length)
    (hfit : self.rem_data_len + env.avail.length ≤ MAX_PACKET_LENGTH) :
    (self.receiveFbsFrames frames0 channel errors env).frames =
      (scanLoop (recvInto (copy_n (self._data_socket channel)._nbbuffer self.rem_data_start
          self.rem_data_len) self.rem_data_len env.avail)
        (self.rem_data_len + env.avail.length) (self.rem_data_len + env.avail.length + 1)
        0 0 []).frames := by
  rw [receiveFbsFrames_data self frames0 channel errors env hstub ha hne hfit]
  simp only []
  generalize scanLoop _ _ _ _ _ _ = x
  cases x <;> rfl

open fbs_receiver in
theorem fbs_receiver.receiveFbsFrames_data_result (self : FbsReceiver) (frames0 : List Nat)
    (channel : fbs_channels) (errors : Nat) (env : SockEnv)
    (hstub : (self._data_socket channel).stubbed = false) (ha : env.alive = true)
    (hne : 0 < env.avail.length)
    (hfit : self.rem_data_len + env.avail.length ≤ MAX_PACKET_LENGTH)
    (hfuel : scanLoop (recvInto (copy_n (self._data_socket channel)._nbbuffer
          self.rem_data_start self.rem_data_len) self.rem_data_len env.avail)
        (self.rem_data_len + env.avail.length) (self.rem_data_len + env.avail.length + 1)
        0 0 [] ≠ .outOfFuel) :
    (self.receiveFbsFrames frames0 channel errors env).result =
      .ret (scanLoop (recvInto (copy_n (self._data_socket channel)._nbbuffer
          self.rem_data_start self.rem_data_len) self.rem_data_len env.avail)
        (self.rem_data_len + env.avail.length) (self.rem_data_len + env.avail.length + 1)
        0 0 []).nframes := by
  rw [receiveFbsFrames_data self frames0 channel errors env hstub ha hne hfit]
  simp only []
  revert hfuel
  generalize scanLoop _ _ _ _ _ _ = x
  cases x <;> simp [ScanExit.nframes]

open fbs_receiver in
theorem fbs_receiver.receiveFbsFrames_frames (self : FbsReceiver) (frames0 : List Nat)
    (channel : fbs_channels) (errors : Nat) (env : SockEnv) :
    (self.receiveFbsFrames frames0 channel errors env).frames = [] ∨
    ∃ data we, (self.receiveFbsFrames frames0 channel errors env).frames
      = (scanLoop data we (we + 1) 0 0 []).frames := by
  unfold FbsReceiver.receiveFbsFrames
  simp only [List.take_zero]
  split
  · exact Or.inl rfl
  · split
    · split
      · exact Or.inl rfl
      · rename_i write_end dev _ _
        refine Or.inr ⟨dev._nbbuffer, write_end, ?_⟩
        generalize scanLoop _ _ _ _ _ _ = x
        cases x <;> rfl
    · exact Or.inl rfl

open fbs_receiver in
theorem fbs_receiver.scanLoop_skip_run (data : NetBuffer) (we : Nat) (hwe : we ≤ 8000) :
    ∀ (g fuel i n : Nat) (fr : List Nat), (∀ j < g, isHeader data (i + j) = false) →
      i + g + 40 ≤ we →
      scanLoop data we (fuel + g) i n fr = scanLoop data we fuel (i + g) n fr := by
  intro g
  induction g with
  | zero => intro fuel i n fr _ _; rfl
  | succ g ih =>
    intro fuel i n fr hno hfit
    have h0 : isHeader data i = false := by simpa using hno 0 (by omega)
    rw [show fuel + (g + 1) = (fuel + g) + 1 by omega,
      scanLoop_skip data we (fuel + g) i n fr hwe (by omega) h0,
      ih fuel (i + 1) n fr
        (by intro j hj; have := hno (j + 1) (by omega); rwa [Nat.add_assoc, Nat.add_comm 1 j])
        (by omega)]
    congr 1
    omega

open fbs_receiver in
theorem fbs_receiver.isHeader_recvInto (buf : NetBuffer) (w : List Nat) (i : Nat)
    (hi : i + 4 ≤ w.length) :
    isHeader (recvInto buf 0 w) i = isHeader (fun k => w.getD k 0) i := by
  apply isHeader_congr
  intro t ht
  rw [recvInto_zero _ _ _ (by omega)]

open fbs_receiver in
theorem fbs_receiver.receiveFbsFrames_stubbed (self : FbsReceiver) (frames0 : List Nat)
    (channel : fbs_channels) (errors : Nat) (env : SockEnv)
    (h : (self._data_socket channel).stubbed = true) :
    self.receiveFbsFrames frames0 channel errors env = ⟨.ret 0, [], errors, self⟩ := by
  simp [FbsReceiver.receiveFbsFrames, NetDevice.isStubbed, h]

open lpps_receiver in
theorem lpps_receiver.receiveLppsFrames_stubbed (self : LppsReceiver) (frames0 : List Nat)
    (channel : lpps_channels) (errors : Nat) (env : SockEnv)
    (h : (self._data_socket channel).stubbed = true) :
    self.receiveLppsFrames frames0 channel errors env = ⟨.ret 0, [], errors, self⟩ := by
  simp [LppsReceiver.receiveLppsFrames, NetDevice.isStubbed, h]

theorem receiveNB_four (d : NetDevice) (e : Bool) (b0 b1 b2 b3 : Nat)
    (hs : d.stubbed = false) :
    d.receiveNB 0 ⟨true, [b0, b1, b2, b3], e⟩
      = (.ret 4, { d with _nbbuffer := recvInto d._nbbuffer 0 [b0, b1, b2, b3] }) := by
  simp [NetDevice.receiveNB, NetDevice.isConnected, hs, MAX_PACKET_LENGTH]

theorem receiveNB_other (d : NetDevice) (other : List Nat) (hs : d.stubbed = false)
    (ho : other.length ≠ 4) :
    ∃ n dev, n ≠ 4 ∧ dev.stubbed = false ∧ d.receiveNB 0 ⟨true, other, true⟩ = (.ret n, dev) := by
  by_cases hz : (other.take (MAX_PACKET_LENGTH - 0)).length > 0
  · refine ⟨0 + (other.take (MAX_PACKET_LENGTH - 0)).length,
      { d with _nbbuffer := recvInto d._nbbuffer 0 (other.take (MAX_PACKET_LENGTH - 0)) }, ?_, hs, ?_⟩
    · simp only [List.length_take, MAX_PACKET_LENGTH]; omega
    · unfold NetDevice.receiveNB
      simp only [NetDevice.isConnected, hs]
      rw [if_pos hz]
      simp
  · refine ⟨0, d, by omega, hs, ?_⟩
    unfold NetDevice.receiveNB
    simp only [NetDevice.isConnected, hs]
    rw [if_neg hz]
    simp
  

open fbs_receiver in
theorem fbs_receiver.queryAcqAsync_sent (self : FbsReceiver)
    (h : self._main_socket.stubbed = false) :
    self.queryAcqAsync true ⟨true, 7⟩ = (NET_ERROR, self) := by
  simp [FbsReceiver.queryAcqAsync, NetDevice.sendQueryNoResponse, NetDevice.transmit,
    NetDevice.isConnected, NetDevice.isStubbed, h, toSize]

open lpps_receiver in
theorem lpps_receiver.lpps_queryAcqAsync_sent (self : LppsReceiver)
    (h : self._main_socket.stubbed = false) :
    self.queryAcqAsync true ⟨true, 7⟩ = (NET_ERROR, self) := by
  simp [LppsReceiver.queryAcqAsync, NetDevice.sendQueryNoResponse, NetDevice.transmit,
    NetDevice.isConnected, NetDevice.isStubbed, h, toSize]

theorem receiveNB_would_block (d : NetDevice) (wi : Nat) (hs : d.stubbed = false) :
    d.receiveNB wi ⟨true, [], true⟩ = (.ret wi, d) := by
  simp [NetDevice.receiveNB, NetDevice.isConnected, hs]

theorem connect_unstubbed (d : NetDevice) (host : String) (port timeout : Int) (b : Bool)
    (env : ConnEnv) :
    (((d.setStubbed false).connect host port timeout b env).1 = .ret () ∧
      ((d.setStubbed false).connect host port timeout b env).2.blocking = b ∧
      ((d.setStubbed false).connect host port timeout b env).2.stubbed = false) ∨
    (((d.setStubbed false).connect host port timeout b env).1 = .thrown ∧
      ((d.setStubbed false).connect host port timeout b env).2.stubbed = true) := by
  unfold NetDevice.connect
  simp only [NetDevice.setStubbed, NetDevice.setBlocking, NetDevice.isConnected,
    Bool.false_eq_true, if_false]
  split
  · exact Or.inr ⟨rfl, rfl⟩
  · split
    · exact Or.inr ⟨rfl, rfl⟩
    · split
      · exact Or.inr ⟨rfl, rfl⟩
      · exact Or.inl ⟨rfl, rfl, rfl⟩

theorem receiveNB_le (d : NetDevice) (wi we : Nat) (env : SockEnv) (dev : NetDevice)
    (h : d.receiveNB wi env = (.ret we, dev)) (hwi : wi ≤ MAX_PACKET_LENGTH) :
    we ≤ MAX_PACKET_LENGTH := by
  unfold NetDevice.receiveNB at h
  split at h
  · simp only [Prod.mk.injEq, Outcome.ret.injEq] at h; omega
  · split at h
    · simp at h
    · simp only at h
      split at h
      · simp only [Prod.mk.injEq, Outcome.ret.injEq] at h
        have := List.length_take_le (MAX_PACKET_LENGTH - wi) env.avail
        omega
      · split at h
        · simp at h
        · simp only [Prod.mk.injEq, Outcome.ret.injEq] at h; omega

open fbs_receiver in
theorem fbs_receiver.scanLoop_fragment_inv (data : NetBuffer) (we : Nat)
    (hwe : we ≤ 8000) :
    ∀ (fuel i n : Nat) (fr : List Nat) (n' : Nat) (fr' : List Nat) (len start : Nat),
      scanLoop data we fuel i n fr = .fragment n' fr' len start →
      len < 40 ∧ start + len = we := by
  intro fuel
  induction fuel with
  | zero => intro i n fr n' fr' len start h; simp [scanLoop] at h
  | succ fuel ih =>
    intro i n fr n' fr' len start h
    rw [scanLoop] at h
    split at h
    · rename_i hlt
      rw [sizeSub_of_le we i (by omega) hwe] at h
      split at h
      · rename_i hs
        simp only [ScanExit.fragment.injEq] at h
        obtain ⟨-, -, h3, h4⟩ := h
        simp only [REC_FRAME_LEN] at hs
        omega
      · split at h
        · exact ih _ _ _ _ _ _ _ h
        · exact ih _ _ _ _ _ _ _ h
    · simp at h

open lpps_receiver in
theorem lpps_receiver.lpps_scanLoop_fragment_inv (data : NetBuffer) (we : Nat)
    (hwe : we ≤ 8000) :
    ∀ (fuel i n : Nat) (fr : List Nat) (n' : Nat) (fr' : List Nat) (len start : Nat),
      scanLoop data we fuel i n fr = .fragment n' fr' len start →
      len < 40 ∧ start + len = we := by
  intro fuel
  induction fuel with
  | zero => intro i n fr n' fr' len start h; simp [scanLoop] at h
  | succ fuel ih =>
    intro i n fr n' fr' len start h
    rw [scanLoop] at h
    split at h
    · rename_i hlt
      rw [sizeSub_of_le we i (by omega) hwe] at h
      split at h
      · rename_i hs
        simp only [ScanExit.fragment.injEq] at h
        obtain ⟨-, -, h3, h4⟩ := h
        simp only [LPPS_FRAME_LEN] at hs
        omega
      · simp only at h
        split at h
        · exact ih _ _ _ _ _ _ _ h
        · exact ih _ _ _ _ _ _ _ h
    · simp at h

open fbs_receiver in
theorem fbs_receiver.receiveFbsFrames_carryover (self : FbsReceiver) (frames0 : List Nat)
    (channel : fbs_channels) (errors : Nat) (env : SockEnv)
    (h : self.rem_data_len < 40 ∧ self.rem_data_start + self.rem_data_len ≤ 8000) :
    (self.receiveFbsFrames frames0 channel errors env).self.rem_data_len < 40 ∧
    (self.receiveFbsFrames frames0 channel errors env).self.rem_data_start
      + (self.receiveFbsFrames frames0 channel errors env).self.rem_data_len ≤ 8000 := by
  unfold FbsReceiver.receiveFbsFrames
  simp only [List.take_zero]
  split
  · exact h
  · split
    · rename_i write_end dev hnb
      have hwe := receiveNB_le _ _ _ _ _ hnb (by simp only [MAX_PACKET_LENGTH]; omega)
      simp only [MAX_PACKET_LENGTH] at hwe
      split
      · exact h
      · split
        · rename_i nframes frames len start hscan
          have := scanLoop_fragment_inv _ _ hwe _ _ _ _ _ _ _ _ hscan
          simp only
          omega
        · exact h
        · exact h
    · exact h

open lpps_receiver in
theorem lpps_receiver.receiveLppsFrames_carryover (self : LppsReceiver) (frames0 : List Nat)
    (channel : lpps_channels) (errors : Nat) (env : SockEnv)
    (h : self.rem_data_len < 40 ∧ self.rem_data_start + self.rem_data_len ≤ 8000) :
    (self.receiveLppsFrames frames0 channel errors env).self.rem_data_len < 40 ∧
    (self.receiveLppsFrames frames0 channel errors env).self.rem_data_start
      + (self.receiveLppsFrames frames0 channel errors env).self.rem_data_len ≤ 8000 := by
  unfold LppsReceiver.receiveLppsFrames
  simp only [List.take_zero]
  split
  · exact h
  · split
    · rename_i write_end dev hnb
      have hwe := receiveNB_le _ _ _ _ _ hnb (by simp only [MAX_PACKET_LENGTH]; omega)
      simp only [MAX_PACKET_LENGTH] at hwe
      split
      · exact h
      · split
        · rename_i nframes frames len start hscan
          have := lpps_scanLoop_fragment_inv _ _ hwe _ _ _ _ _ _ _ _ hscan
          simp only
          omega
        · exact h
        · exact h
    · exact h

open fbs_receiver in
theorem fbs_receiver.purgeSocket_carryover (self : FbsReceiver) (channel : fbs_channels)
    (env : SockEnv)
    (h : self.rem_data_len < 40 ∧ self.rem_data_start + self.rem_data_len ≤ 8000) :
    (self.purgeSocket channel env).2.rem_data_len < 40 ∧
    (self.purgeSocket channel env).2.rem_data_start
      + (self.purgeSocket channel env).2.rem_data_len ≤ 8000 := by
  unfold FbsReceiver.purgeSocket
  split
  · exact h
  · split
    · simp
    · exact h

open lpps_receiver in
theorem lpps_receiver.lpps_purgeSocket_carryover (self : LppsReceiver)
    (channel : lpps_channels) (env : SockEnv)
    (h : self.rem_data_len < 40 ∧ self.rem_data_start + self.rem_data_len ≤ 8000) :
    (self.purgeSocket channel env).2.rem_data_len < 40 ∧
    (self.purgeSocket channel env).2.rem_data_start
      + (self.purgeSocket channel env).2.rem_data_len ≤ 8000 := by
  unfold LppsReceiver.purgeSocket
  split
  · exact h
  · split
    · simp
    · exact h

open fbs_receiver in
theorem fbs_receiver.connect_channel_carryover (self : FbsReceiver) (hostname : String)
    (channel : fbs_channels) (data_port : Int) (env : ConnEnv) :
    (self.connect_channel hostname channel data_port env).2.rem_data_len = self.rem_data_len ∧
    (self.connect_channel hostname channel data_port env).2.rem_data_start
      = self.rem_data_start := by
  unfold FbsReceiver.connect_channel
  split <;> exact ⟨rfl, rfl⟩

open lpps_receiver in
theorem lpps_receiver.lpps_connect_channel_carryover (self : LppsReceiver)
    (hostname : String) (channel : lpps_channels) (data_port : Int) (env : ConnEnv) :
    (self.connect_channel hostname channel data_port env).2.rem_data_len = self.rem_data_len ∧
    (self.connect_channel hostname channel data_port env).2.rem_data_start
      = self.rem_data_start := by
  unfold LppsReceiver.connect_channel
  split <;> exact ⟨rfl, rfl⟩

theorem FbsCall.apply_carryover (self : fbs_receiver.FbsReceiver) (c : FbsCall)
    (h : self.rem_data_len < 40 ∧ self.rem_data_start + self.rem_data_len ≤ 8000) :
    (c.apply self).rem_data_len < 40 ∧
    (c.apply self).rem_data_start + (c.apply self).rem_data_len ≤ 8000 := by
  cases c with
  | connect_channel hostname channel data_port env =>
    have := fbs_receiver.connect_channel_carryover self hostname channel data_port env
    simp only [FbsCall.apply, this.1, this.2]
    exact h
  | receiveFbsFrames frames channel errors env =>
    exact fbs_receiver.receiveFbsFrames_carryover self frames channel errors env h
  | purgeSocket channel env => exact fbs_receiver.purgeSocket_carryover self channel env h

theorem LppsCall.lpps_apply_carryover (self : lpps_receiver.LppsReceiver) (c : LppsCall)
    (h : self.rem_data_len < 40 ∧ self.rem_data_start + self.rem_data_len ≤ 8000) :
    (c.apply self).rem_data_len < 40 ∧
    (c.apply self).rem_data_start + (c.apply self).rem_data_len ≤ 8000 := by
  cases c with
  | connect_channel hostname channel data_port env =>
    have := lpps_receiver.lpps_connect_channel_carryover self hostname channel data_port env
    simp only [LppsCall.apply, this.1, this.2]
    exact h
  | receiveLppsFrames frames channel errors env =>
    exact lpps_receiver.receiveLppsFrames_carryover self frames channel errors env h
  | purgeSocket channel env =>
    exact lpps_receiver.lpps_purgeSocket_carryover self channel env h

theorem FbsCall.foldl_carryover (calls : List FbsCall) :
    ∀ self : fbs_receiver.FbsReceiver,
      self.rem_data_len < 40 ∧ self.rem_data_start + self.rem_data_len ≤ 8000 →
      (calls.foldl FbsCall.apply self).rem_data_len < 40 ∧
      (calls.foldl FbsCall.apply self).rem_data_start
        + (calls.foldl FbsCall.apply self).rem_data_len ≤ 8000 := by
  induction calls with
  | nil => intro self h; exact h
  | cons c cs ih => intro self h; exact ih _ (FbsCall.apply_carryover self c h)

theorem LppsCall.lpps_foldl_carryover (calls : List LppsCall) :
    ∀ self : lpps_receiver.LppsReceiver,
      self.rem_data_len < 40 ∧ self.rem_data_start + self.rem_data_len ≤ 8000 →
      (calls.foldl LppsCall.apply self).rem_data_len < 40 ∧
      (calls.foldl LppsCall.apply self).rem_data_start
        + (calls.foldl LppsCall.apply self).rem_data_len ≤ 8000 := by
  induction calls with
  | nil => intro self h; exact h
  | cons c cs ih => intro self h; exact ih _ (LppsCall.lpps_apply_carryover self c h)

open fbs_receiver in
theorem fbs_receiver.scanLoop_fuel (d : NetBuffer) (we : Nat) :
    ∀ (f1 f2 i n : Nat) (fr : List Nat), we - i < f1 → we - i < f2 →
      scanLoop d we f1 i n fr = scanLoop d we f2 i n fr := by
  intro f1
  induction f1 with
  | zero => intro f2 i n fr h1 _; omega
  | succ f1 ih =>
    intro f2 i n fr h1 h2
    obtain ⟨g, rfl⟩ : ∃ g, f2 = g + 1 := ⟨f2 - 1, by omega⟩
    rw [scanLoop, scanLoop]
    by_cases hlt : i < we
    · simp only [hlt, if_true]
      by_cases hs : sizeSub we i < REC_FRAME_LEN
      · simp only [hs, if_true]
      · simp only [hs, if_false]
        by_cases hh : isHeader d i = true
        · simp only [hh, if_true]
          exact ih g _ _ _ (by simp only [REC_FRAME_LEN]; omega)
            (by simp only [REC_FRAME_LEN]; omega)
        · simp only [hh, if_false]
          exact ih g _ _ _ (by omega) (by omega)
    · simp only [hlt, if_false]

open fbs_receiver in
theorem fbs_receiver.isHeader_shift (d2 dAll : NetBuffer) (i j : Nat)
    (h : ∀ t < 4, d2 (i + t) = dAll (j + i + t)) : isHeader d2 i = isHeader dAll (j + i) := by
  have h0 := h 0 (by omega)
  have h1 := h 1 (by omega)
  have h2 := h 2 (by omega)
  have h3 := h 3 (by omega)
  simp only [Nat.add_zero] at h0
  simp only [isHeader, h0, h1, h2, h3]

open fbs_receiver in
/-- The scan of the first `a` bytes stops at some index `j`; the scan of a longer window
that starts with the same bytes passes through the same index with the same frames. -/
theorem fbs_receiver.scanLoop_prefix (d1 dAll : NetBuffer) (a N : Nat) (haN : a ≤ N)
    (hN : N ≤ 8000) (hagree : ∀ k < a, d1 k = dAll k) :
    ∀ (fuel i n : Nat) (fr : List Nat), i ≤ a → a - i < fuel →
      ∃ (j n' : Nat) (fr' : List Nat), j ≤ a ∧
        ((j < a ∧ a < j + 40 ∧ scanLoop d1 a fuel i n fr = .fragment n' fr' (a - j) j) ∨
          (j = a ∧ scanLoop d1 a fuel i n fr = .finished n' fr')) ∧
        scanLoop dAll N (N - i + 1) i n fr = scanLoop dAll N (N - j + 1) j n' fr' := by
  intro fuel
  induction fuel with
  | zero => intro i n fr _ h; omega
  | succ fuel ih =>
    intro i n fr hia hf
    by_cases hlt : i < a
    · by_cases hs : a < i + 40
      · exact ⟨i, n, fr, hia, Or.inl ⟨hlt, hs,
          scanLoop_fragment d1 a fuel i n fr (by omega) hlt hs⟩, rfl⟩
      · have hcong : isHeader d1 i = isHeader dAll i :=
          isHeader_congr d1 dAll i (fun t ht => hagree (i + t) (by omega))
        by_cases hh : isHeader d1 i = true
        · obtain ⟨j, n', fr', hj, hcase, hcont⟩ :=
            ih (i + 40) (n + 1) (fr ++ [i + 4]) (by omega) (by omega)
          refine ⟨j, n', fr', hj, ?_, ?_⟩
          · rw [scanLoop_header d1 a fuel i n fr (by omega) (by omega) hh]
            exact hcase
          · rw [← hcont, show N - i + 1 = (N - i) + 1 by rfl,
              scanLoop_header dAll N (N - i) i n fr hN (by omega) (hcong ▸ hh)]
            exact scanLoop_fuel dAll N _ _ _ _ _ (by omega) (by omega)
        · have hh' : isHeader d1 i = false := by simpa using hh
          obtain ⟨j, n', fr', hj, hcase, hcont⟩ := ih (i + 1) n fr (by omega) (by omega)
          refine ⟨j, n', fr', hj, ?_, ?_⟩
          · rw [scanLoop_skip d1 a fuel i n fr (by omega) (by omega) hh']
            exact hcase
          · rw [← hcont, show N - i + 1 = (N - i) + 1 by rfl,
              scanLoop_skip dAll N (N - i) i n fr hN (by omega) (hcong ▸ hh')]
            exact scanLoop_fuel dAll N _ _ _ _ _ (by omega) (by omega)
    · have hia' : i = a := by omega
      exact ⟨i, n, fr, hia, Or.inr ⟨hia', scanLoop_finished d1 a fuel i n fr (by omega)⟩, rfl⟩

open fbs_receiver in
/-- The scan of a window that is the tail, from index `j`, of a longer window finds the
frames the scan of the longer window finds from `j` on, at offsets lower by `j`. -/
theorem fbs_receiver.scanLoop_shift (d2 dAll : NetBuffer) (N j : Nat) (hj : j ≤ N)
    (hN : N ≤ 8000) (hshift : ∀ k, k < N - j → d2 k = dAll (j + k)) :
    ∀ (fuel i n m : Nat) (fr gr : List Nat), N - j - i < fuel →
      ∃ ex : List Nat,
        (scanLoop d2 (N - j) fuel i m gr).frames = gr ++ ex ∧
        (scanLoop d2 (N - j) fuel i m gr).nframes = m + ex.length ∧
        scanLoop d2 (N - j) fuel i m gr ≠ .outOfFuel ∧
        (scanLoop dAll N fuel (j + i) n fr).frames = fr ++ ex.map (fun x => x + j) ∧
        (scanLoop dAll N fuel (j + i) n fr).nframes = n + ex.length ∧
        scanLoop dAll N fuel (j + i) n fr ≠ .outOfFuel := by
  intro fuel
  induction fuel with
  | zero => intro i n m fr gr h; omega
  | succ fuel ih =>
    intro i n m fr gr hf
    by_cases hlt : i < N - j
    · by_cases hs : N - j < i + 40
      · rw [scanLoop_fragment d2 (N - j) fuel i m gr (by omega) hlt hs,
          scanLoop_fragment dAll N fuel (j + i) n fr hN (by omega) (by omega)]
        exact ⟨[], by simp [ScanExit.frames], by simp [ScanExit.nframes], by simp,
          by simp [ScanExit.frames], by simp [ScanExit.nframes], by simp⟩
      · have hcong : isHeader d2 i = isHeader dAll (j + i) :=
          isHeader_shift d2 dAll i j (fun t ht => by
            rw [hshift (i + t) (by omega), Nat.add_assoc])
        by_cases hh : isHeader d2 i = true
        · obtain ⟨ex, h1, h2, h3, h4, h5, h6⟩ :=
            ih (i + 40) (n + 1) (m + 1) (fr ++ [j + i + 4]) (gr ++ [i + 4]) (by omega)
          rw [scanLoop_header d2 (N - j) fuel i m gr (by omega) (by omega) hh,
            scanLoop_header dAll N fuel (j + i) n fr hN (by omega) (hcong ▸ hh)]
          rw [show j + i + 40 = j + (i + 40) by omega]
          refine ⟨(i + 4) :: ex, ?_, ?_, h3, ?_, ?_, h6⟩
          · rw [h1]; simp
          · rw [h2]; simp only [List.length_cons]; omega
          · rw [h4]
            simp only [List.map_cons, List.append_assoc, List.singleton_append]
            rw [show j + i + 4 = i + 4 + j by omega]
          · rw [h5]; simp only [List.length_cons]; omega
        · have hh' : isHeader d2 i = false := by simpa using hh
          obtain ⟨ex, h1, h2, h3, h4, h5, h6⟩ := ih (i + 1) n m fr gr (by omega)
          rw [scanLoop_skip d2 (N - j) fuel i m gr (by omega) (by omega) hh',
            scanLoop_skip dAll N fuel (j + i) n fr hN (by omega) (hcong ▸ hh')]
          rw [show j + i + 1 = j + (i + 1) by omega]
          exact ⟨ex, h1, h2, h3, h4, h5, h6⟩
    · rw [scanLoop_finished d2 (N - j) fuel i m gr (by omega),
        scanLoop_finished dAll N fuel (j + i) n fr (by omega)]
      exact ⟨[], by simp [ScanExit.frames], by simp [ScanExit.nframes], by simp,
        by simp [ScanExit.frames], by simp [ScanExit.nframes], by simp⟩

open fbs_receiver in
theorem fbs_receiver.receiveFbsFrames_data_self (self : FbsReceiver) (frames0 : List Nat)
    (channel : fbs_channels) (errors : Nat) (env : SockEnv)
    (hstub : (self._data_socket channel).stubbed = false) (ha : env.alive = true)
    (hne : 0 < env.avail.length)
    (hfit : self.rem_data_len + env.avail.length ≤ MAX_PACKET_LENGTH) :
    ((self.receiveFbsFrames frames0 channel errors env).self._data_socket channel).stubbed
      = false ∧
    ((self.receiveFbsFrames frames0 channel errors env).self._data_socket channel)._nbbuffer
      = recvInto (copy_n (self._data_socket channel)._nbbuffer self.rem_data_start
          self.rem_data_len) self.rem_data_len env.avail ∧
    (∀ n fr len start,
      scanLoop (recvInto (copy_n (self._data_socket channel)._nbbuffer self.rem_data_start
          self.rem_data_len) self.rem_data_len env.avail)
        (self.rem_data_len + env.avail.length) (self.rem_data_len + env.avail.length + 1)
        0 0 [] = .fragment n fr len start →
      (self.receiveFbsFrames frames0 channel errors env).self.rem_data_len = len ∧
      (self.receiveFbsFrames frames0 channel errors env).self.rem_data_start = start) ∧
    (∀ n fr,
      scanLoop (recvInto (copy_n (self._data_socket channel)._nbbuffer self.rem_data_start
          self.rem_data_len) self.rem_data_len env.avail)
        (self.rem_data_len + env.avail.length) (self.rem_data_len + env.avail.length + 1)
        0 0 [] = .finished n fr →
      (self.receiveFbsFrames frames0 channel errors env).self.rem_data_len
        = self.rem_data_len ∧
      (self.receiveFbsFrames frames0 channel errors env).self.rem_data_start
        = self.rem_data_start) := by
  rw [receiveFbsFrames_data self frames0 channel errors env hstub ha hne hfit]
  simp only []
  generalize scanLoop _ _ _ _ _ _ = x
  cases x <;> simp [Function.update_same, hstub]

open fbs_receiver in
/-- The first of two reads on a channel with empty carryover: the call returns, and the
index `j` where its scan stops is where a scan of any longer window with the same first
bytes passes with the same frames; the carryover left is the bytes from `j` on. -/
theorem fbs_receiver.first_read (self : FbsReceiver) (frames0 : List Nat)
    (channel : fbs_channels) (errors : Nat) (e : Bool) (chunk1 : List Nat)
    (dAll : NetBuffer) (N : Nat)
    (hstub : (self._data_socket channel).stubbed = false)
    (hcarry : self.rem_data_len = 0) (h1 : 0 < chunk1.length)
    (haN : chunk1.length ≤ N) (hN : N ≤ 8000)
    (hagree : ∀ k < chunk1.length, dAll k = chunk1.getD k 0) :
    ∃ (j n' : Nat) (fr' : List Nat), j ≤ chunk1.length ∧
      (self.receiveFbsFrames frames0 channel errors ⟨true, chunk1, e⟩).result = .ret n' ∧
      (self.receiveFbsFrames frames0 channel errors ⟨true, chunk1, e⟩).frames = fr' ∧
      ((self.receiveFbsFrames frames0 channel errors ⟨true, chunk1, e⟩).self._data_socket
        channel).stubbed = false ∧
      (∀ k < chunk1.length,
        ((self.receiveFbsFrames frames0 channel errors ⟨true, chunk1, e⟩).self._data_socket
          channel)._nbbuffer k = chunk1.getD k 0) ∧
      (self.receiveFbsFrames frames0 channel errors ⟨true, chunk1, e⟩).self.rem_data_len
        = chunk1.length - j ∧
      ((self.receiveFbsFrames frames0 channel errors ⟨true, chunk1, e⟩).self.rem_data_len = 0 ∨
        (self.receiveFbsFrames frames0 channel errors ⟨true, chunk1, e⟩).self.rem_data_start
          = j) ∧
      scanLoop dAll N (N + 1) 0 0 [] = scanLoop dAll N (N - j + 1) j n' fr' := by
  have hfit : self.rem_data_len + (⟨true, chunk1, e⟩ : SockEnv).avail.length
      ≤ MAX_PACKET_LENGTH := by
    show self.rem_data_len + chunk1.length ≤ MAX_PACKET_LENGTH
    simp only [hcarry, MAX_PACKET_LENGTH]; omega
  obtain ⟨hs1, hb1, hfrag, hfin⟩ := receiveFbsFrames_data_self self frames0 channel errors
    ⟨true, chunk1, e⟩ hstub rfl h1 hfit
  have hfr := receiveFbsFrames_data_frames self frames0 channel errors ⟨true, chunk1, e⟩
    hstub rfl h1 hfit
  have hres := receiveFbsFrames_data_result self frames0 channel errors ⟨true, chunk1, e⟩
    hstub rfl h1 hfit
  simp only [hcarry, Nat.zero_add] at hb1 hfrag hfin hfr hres
  obtain ⟨j, n', fr', hj, hcase, hcont⟩ := scanLoop_prefix
    (recvInto (copy_n (self._data_socket channel)._nbbuffer self.rem_data_start 0) 0 chunk1)
    dAll chunk1.length N haN hN
    (fun k hk => by rw [recvInto_zero _ _ _ hk, hagree k hk])
    (chunk1.length + 1) 0 0 [] (by omega) (by omega)
  rw [Nat.sub_zero] at hcont
  refine ⟨j, n', fr', hj, ?_, ?_, hs1, ?_, ?_, ?_, hcont⟩
  · rcases hcase with ⟨-, -, hscan⟩ | ⟨-, hscan⟩
    · rw [hres (by rw [hscan]; simp), hscan]; rfl
    · rw [hres (by rw [hscan]; simp), hscan]; rfl
  · rcases hcase with ⟨-, -, hscan⟩ | ⟨-, hscan⟩
    · rw [hfr, hscan]; rfl
    · rw [hfr, hscan]; rfl
  · intro k hk
    rw [hb1, recvInto_zero _ _ _ hk]
  · rcases hcase with ⟨-, -, hscan⟩ | ⟨hja, hscan⟩
    · exact (hfrag _ _ _ _ hscan).1
    · rw [(hfin _ _ hscan).1, hja]; omega
  · rcases hcase with ⟨-, -, hscan⟩ | ⟨hja, hscan⟩
    · exact Or.inr (hfrag _ _ _ _ hscan).2
    · exact Or.inl (hfin _ _ hscan).1

open fbs_receiver in
theorem fbs_receiver.scanLoopTrace_exit (data : NetBuffer) (we : Nat) :
    ∀ (fuel i n : Nat) (fr : List Nat),
      (scanLoopTrace data we fuel i n fr).exit = scanLoop data we fuel i n fr := by
  intro fuel
  induction fuel with
  | zero => intro i n fr; rfl
  | succ fuel ih =>
    intro i n fr
    rw [scanLoopTrace, scanLoop]
    split
    · split
      · rfl
      · split
        · exact ih _ _ _
        · exact ih _ _ _
    · rfl

open lpps_receiver in
theorem lpps_receiver.lpps_scanLoopTrace_exit (data : NetBuffer) (we : Nat) :
    ∀ (fuel i n : Nat) (fr : List Nat),
      (scanLoopTrace data we fuel i n fr).exit = scanLoop data we fuel i n fr := by
  intro fuel
  induction fuel with
  | zero => intro i n fr; rfl
  | succ fuel ih =>
    intro i n fr
    rw [scanLoopTrace, scanLoop]
    split
    · split
      · rfl
      · simp only []
        split
        · exact ih _ _ _
        · exact ih _ _ _
    · rfl

open fbs_receiver in
theorem fbs_receiver.headerReads_le (data : NetBuffer) (i : Nat) :
    ∀ r ∈ headerReads data i, i ≤ r ∧ r ≤ i + 3 := by
  intro r hr
  unfold headerReads at hr
  split at hr
  · split at hr
    · split at hr <;> simp at hr <;> omega
    · simp at hr; omega
  · simp at hr; omega

open lpps_receiver in
theorem lpps_receiver.lpps_headerReads_le (data : NetBuffer) (i : Nat) :
    ∀ r ∈ headerReads data i, i ≤ r ∧ r ≤ i + 4 := by
  intro r hr
  unfold headerReads at hr
  split at hr
  · split at hr
    · split at hr
      · split at hr <;> simp at hr <;> omega
      · simp at hr; omega
    · simp at hr; omega
  · simp at hr; omega

open fbs_receiver in
/-- Progress and bounds of the FBS loop: entered at `i` with `we - i < fuel`, it is left
by one of its exits after at most `we - i` iterations and reads only below `we`. -/
theorem fbs_receiver.scanLoopTrace_bounds (data : NetBuffer) (we : Nat) (hwe : we ≤ 8000) :
    ∀ (fuel i n : Nat) (fr : List Nat), we - i < fuel →
      (scanLoopTrace data we fuel i n fr).exit ≠ .outOfFuel ∧
      (scanLoopTrace data we fuel i n fr).iterations ≤ we - i ∧
      ∀ r ∈ (scanLoopTrace data we fuel i n fr).reads, r < we := by
  intro fuel
  induction fuel with
  | zero => intro i n fr h; omega
  | succ fuel ih =>
    intro i n fr h
    rw [scanLoopTrace]
    by_cases hlt : i < we
    · rw [if_pos hlt, sizeSub_of_le we i (by omega) hwe]
      by_cases hs : we - i < REC_FRAME_LEN
      · rw [if_pos hs]
        exact ⟨by simp, by simp only []; omega, by simp⟩
      · rw [if_neg hs]
        simp only [REC_FRAME_LEN] at hs
        have hrd : ∀ r ∈ headerReads data i, r < we := fun r hr => by
          have := headerReads_le data i r hr; omega
        by_cases hh : isHeader data i = true
        · rw [if_pos hh]
          obtain ⟨h1, h2, h3⟩ := ih (i + REC_FRAME_LEN) (n + 1) (fr ++ [i + 4])
            (by simp only [REC_FRAME_LEN]; omega)
          simp only [REC_FRAME_LEN] at h1 h2 h3 ⊢
          refine ⟨h1, by omega, ?_⟩
          intro r hr
          rcases List.mem_append.1 hr with hr | hr
          · exact hrd r hr
          · exact h3 r hr
        · rw [if_neg hh]
          obtain ⟨h1, h2, h3⟩ := ih (i + 1) n fr (by omega)
          refine ⟨h1, by simp only []; omega, ?_⟩
          intro r hr
          rcases List.mem_append.1 hr with hr | hr
          · exact hrd r hr
          · exact h3 r hr
    · rw [if_neg hlt]
      exact ⟨by simp, by simp, by simp⟩

open lpps_receiver in
/-- Progress and bounds of the LPPS loop: entered at `i` with `we - i < fuel`, it is left
by one of its exits after at most `we - i` iterations and reads only below `we`. -/
theorem lpps_receiver.lpps_scanLoopTrace_bounds (data : NetBuffer) (we : Nat)
    (hwe : we ≤ 8000) :
    ∀ (fuel i n : Nat) (fr : List Nat), we - i < fuel →
      (scanLoopTrace data we fuel i n fr).exit ≠ .outOfFuel ∧
      (scanLoopTrace data we fuel i n fr).iterations ≤ we - i ∧
      ∀ r ∈ (scanLoopTrace data we fuel i n fr).reads, r < we := by
  intro fuel
  induction fuel with
  | zero => intro i n fr h; omega
  | succ fuel ih =>
    intro i n fr h
    rw [scanLoopTrace]
    by_cases hlt : i < we
    · rw [if_pos hlt, sizeSub_of_le we i (by omega) hwe]
      by_cases hs : we - i < LPPS_FRAME_LEN
      · rw [if_pos hs]
        exact ⟨by simp, by simp only []; omega, by simp⟩
      · rw [if_neg hs]
        simp only [LPPS_FRAME_LEN] at hs
        have hrd : ∀ r ∈ headerReads data i, r < we := fun r hr => by
          have := lpps_headerReads_le data i r hr; omega
        by_cases hh : isHeader data i = true
        · rw [if_pos hh]
          obtain ⟨h1, h2, h3⟩ := ih (i + LPPS_FRAME_LEN) (n + 1) (fr ++ [i] ++ [i])
            (by simp only [LPPS_FRAME_LEN]; omega)
          simp only [LPPS_FRAME_LEN] at h1 h2 h3 ⊢
          refine ⟨h1, by omega, ?_⟩
          intro r hr
          rcases List.mem_append.1 hr with hr | hr
          · exact hrd r hr
          · exact h3 r hr
        · rw [if_neg hh]
          obtain ⟨h1, h2, h3⟩ := ih (i + 1) n (fr ++ [i]) (by omega)
          refine ⟨h1, by simp only []; omega, ?_⟩
          intro r hr
          rcases List.mem_append.1 hr with hr | hr
          · exact hrd r hr
          · exact h3 r hr
    · rw [if_neg hlt]
      exact ⟨by simp, by simp, by simp⟩

open lpps_receiver in
theorem lpps_receiver.lpps_scanLoop_total (data : NetBuffer) (we : Nat) :
    ∀ (fuel i n : Nat) (fr : List Nat), we - i < fuel →
      scanLoop data we fuel i n fr ≠ .outOfFuel := by
  intro fuel
  induction fuel with
  | zero => intro i n fr h; omega
  | succ fuel ih =>
    intro i n fr h
    rw [scanLoop]
    split
    · split
      · simp
      · simp only []
        split
        · exact ih _ _ _ (by simp only [LPPS_FRAME_LEN]; omega)
        · exact ih _ _ _ (by omega)
    · simp

open fbs_receiver in
theorem fbs_receiver.receiveFbsFrames_returns (self : FbsReceiver) (frames0 : List Nat)
    (channel : fbs_channels) (errors : Nat) (env : SockEnv) :
    (self.receiveFbsFrames frames0 channel errors env).result ≠ .noReturn := by
  have key : ∀ (d : NetBuffer) (we : Nat), scanLoop d we (we + 1) 0 0 [] ≠ .outOfFuel :=
    fun d we => by
      obtain ⟨_, -, -, -, -, h⟩ := scanLoop_exit d we (we + 1) 0 0 [] (by omega)
      exact h
  unfold FbsReceiver.receiveFbsFrames
  simp only [List.take_zero]
  split
  · simp
  · split
    · split
      · simp
      · split
        · simp
        · simp
        · rename_i hscan
          exact absurd hscan (key _ _)
    · simp

open lpps_receiver in
theorem lpps_receiver.receiveLppsFrames_returns (self : LppsReceiver) (frames0 : List Nat)
    (channel : lpps_channels) (errors : Nat) (env : SockEnv) :
    (self.receiveLppsFrames frames0 channel errors env).result ≠ .noReturn := by
  have key : ∀ (d : NetBuffer) (we : Nat), scanLoop d we (we + 1) 0 0 [] ≠ .outOfFuel :=
    fun d we => lpps_scanLoop_total d we (we + 1) 0 0 [] (by omega)
  unfold LppsReceiver.receiveLppsFrames
  simp only [List.take_zero]
  split
  · simp
  · split
    · split
      · simp
      · split
        · simp
        · simp
        · rename_i hscan
          exact absurd hscan (key _ _)
    · simp

theorem copy_n_reads_lt (first count : Nat) (h : first + count ≤ MAX_PACKET_LENGTH) :
    ∀ k ∈ copy_n_reads first count, k < MAX_PACKET_LENGTH := by
  intro k hk
  simp only [copy_n_reads, List.mem_map, List.mem_range] at hk
  obtain ⟨c, hc, rfl⟩ := hk
  omega

theorem copy_n_writes_lt (count : Nat) (h : count ≤ MAX_PACKET_LENGTH) :
    ∀ k ∈ copy_n_writes count, k < MAX_PACKET_LENGTH := by
  intro k hk
  simp only [copy_n_writes, List.mem_range] at hk
  omega

/-- The index lists of the relocation copy are the indices `copy_n` depends on and
changes: an index in `copy_n_writes` receives the byte at an index of `copy_n_reads`,
every other index keeps its byte. -/
theorem copy_n_accesses (data : NetBuffer) (first count : Nat) :
    (∀ k ∈ copy_n_writes count,
      first + k ∈ copy_n_reads first count ∧ copy_n data first count k = data (first + k)) ∧
    (∀ k, k ∉ copy_n_writes count → copy_n data first count k = data k) := by
  refine ⟨?_, ?_⟩
  · intro k hk
    simp only [copy_n_writes, List.mem_range] at hk
    refine ⟨?_, by simp [copy_n, hk]⟩
    simp only [copy_n_reads, List.mem_map, List.mem_range]
    exact ⟨k, hk, rfl⟩
  · intro k hk
    simp only [copy_n_writes, List.mem_range] at hk
    simp [copy_n, hk]

/-! ## Claims -/

/-- C1 (split-invariance) evaluated on a 115-byte stream, two frames and 35 bytes that hold
no frame: read in one piece, `receiveFbsFrames` returns 2 frames; read as 45 + 35 + 35
bytes, the three calls return 1, 1 and 1 frames, the third found in a window that starts
with five bytes left in the buffer by the first read.  The same happens with
`receiveLppsFrames`. -/
theorem C1_split_changes_frames :
    fbsPulls fbsReady .CHANNEL_1 [fbsFrame ++ fbsFrame ++ List.replicate 35 9]
      = [(.ret 2, [4, 44])] ∧
    fbsPulls fbsReady .CHANNEL_1
        [fbsFrame ++ fbsFrame.take 5, fbsFrame.drop 5, List.replicate 35 9]
      = [(.ret 1, [4]), (.ret 1, [4]), (.ret 1, [4])] ∧
    (lppsPulls lppsReady .CHANNEL_1 [lppsFrame ++ lppsFrame ++ List.replicate 35 9]).map Prod.fst
      = [.ret 2] ∧
    (lppsPulls lppsReady .CHANNEL_1
        [lppsFrame ++ lppsFrame.take 5, lppsFrame.drop 5, List.replicate 35 9]).map Prod.fst
      = [.ret 1, .ret 1, .ret 1] := by
  refine ⟨by decide, by decide, by decide, by decide⟩

open fbs_receiver in
/-- C2 (round trip): a channel with empty carryover that receives, in one read, a buffer
of `K` concatenated 40-byte records each starting with `0x01 'F' 'B' 'U'`
(`1 ≤ K ≤ 200`) makes `receiveFbsFrames` return `K` and emit exactly `K` payload
references, the `j`-th at buffer offset `40 * j + 4`. -/
theorem C2_round_trip (self : FbsReceiver) (frames0 : List Nat) (channel : fbs_channels)
    (errors : Nat) (e : Bool) (records : List (List Nat))
    (hK : 1 ≤ records.length ∧ records.length ≤ 200)
    (hrec : ∀ r ∈ records, r.length = 40 ∧ r.take 4 = [0x01, 70, 66, 85])
    (hstub : (self._data_socket channel).stubbed = false)
    (hcarry : self.rem_data_len = 0) :
    (self.receiveFbsFrames frames0 channel errors ⟨true, records.flatten, e⟩).result
        = .ret records.length ∧
    (self.receiveFbsFrames frames0 channel errors ⟨true, records.flatten, e⟩).frames
        = (List.range records.length).map (fun j => 40 * j + 4) := by
  have hlen := length_flatten_records records (fun r hr => (hrec r hr).1)
  have hscan := scanLoop_frames
    (recvInto (copy_n (self._data_socket channel)._nbbuffer self.rem_data_start 0) 0
      records.flatten)
    (40 * records.length) (by omega) records.length (40 * records.length + 1) 0 0 []
    (by omega)
    (by
      intro j hj
      rw [isHeader_congr _ (fun k => [0x01, 70, 66, 85].getD (k - 40 * j) 0)]
      · simp [isHeader]
      · intro t ht
        rw [recvInto_zero _ _ _ (by omega), Nat.zero_add,
          getD_flatten_records records hrec j hj t ht]
        simp)
    (by omega)
  rw [receiveFbsFrames_data self frames0 channel errors ⟨true, records.flatten, e⟩ hstub rfl
    (by simp only [hlen]; omega) (by simp only [hlen, hcarry, MAX_PACKET_LENGTH]; omega)]
  simp only [hcarry, hlen, Nat.zero_add, hscan]
  simp

/-- Witness of C2: two concatenated records are returned as two frames at 4 and 44. -/
theorem C2_round_trip_witness :
    (1 ≤ [fbsFrame, fbsFrame].length ∧ [fbsFrame, fbsFrame].length ≤ 200) ∧
    (fbsReady.receiveFbsFrames [] .CHANNEL_1 0 ⟨true, [fbsFrame, fbsFrame].flatten, true⟩).result
        = .ret 2 ∧
    (fbsReady.receiveFbsFrames [] .CHANNEL_1 0 ⟨true, [fbsFrame, fbsFrame].flatten, true⟩).frames
        = [4, 44] :=
  ⟨by decide,
    C2_round_trip fbsReady [] .CHANNEL_1 0 true [fbsFrame, fbsFrame] (by decide) (by decide)
      rfl rfl⟩

/-- C3 evaluated: with a carryover of 5 bytes at offset 40 pending, a read of the missing
35 bytes makes the scan match one frame that ends at `write_end = 40`; after the call
`rem_data_len` is still 5 and `rem_data_start` still 40, for both receivers. -/
theorem C3_carryover_not_reset :
    (fbsAfter45.rem_data_len = 5 ∧ fbsAfter45.rem_data_start = 40) ∧
    (fbsAfter45.receiveFbsFrames [] .CHANNEL_1 0 ⟨true, fbsFrame.drop 5, true⟩).result = .ret 1 ∧
    (fbsAfter45.receiveFbsFrames [] .CHANNEL_1 0 ⟨true, fbsFrame.drop 5, true⟩).frames = [4] ∧
    (fbsAfter45.receiveFbsFrames [] .CHANNEL_1 0 ⟨true, fbsFrame.drop 5, true⟩).self.rem_data_len
      = 5 ∧
    (fbsAfter45.receiveFbsFrames [] .CHANNEL_1 0 ⟨true, fbsFrame.drop 5, true⟩).self.rem_data_start
      = 40 ∧
    (lppsAfter45.receiveLppsFrames [] .CHANNEL_1 0 ⟨true, lppsFrame.drop 5, true⟩).result
      = .ret 1 ∧
    (lppsAfter45.receiveLppsFrames [] .CHANNEL_1 0
      ⟨true, lppsFrame.drop 5, true⟩).self.rem_data_len = 5 ∧
    (lppsAfter45.receiveLppsFrames [] .CHANNEL_1 0
      ⟨true, lppsFrame.drop 5, true⟩).self.rem_data_start = 40 := by
  refine ⟨by decide, by decide, by decide, by decide, by decide, by decide, by decide,
    by decide⟩

/-- C4 evaluated: after a 40-byte read (one noise byte, then the first 39 bytes of a
frame) the carryover is 39 bytes at offset 1.  A call during which `recv` would block
returns 0 and leaves `rem_data_len = 39`, `rem_data_start = 1`, but it has already moved
the bytes to the front of the buffer; the next call, which receives the last byte of the
frame, scans a window that is not the 39 carried bytes followed by the new byte and finds
no frame.  Without the call in between the window is the whole frame and it is found. -/
theorem C4_idle_call_changes_window :
    (fbsAfterNoise.rem_data_len = 39 ∧ fbsAfterNoise.rem_data_start = 1) ∧
    (fbsAfterNoise.receiveFbsFrames [] .CHANNEL_1 0 ⟨true, [], true⟩).result = .ret 0 ∧
    (fbsAfterIdle.rem_data_len = 39 ∧ fbsAfterIdle.rem_data_start = 1) ∧
    fbsWindow (fbsAfterIdle.receiveFbsFrames [] .CHANNEL_1 0
        ⟨true, fbsFrame.drop 39, true⟩).self .CHANNEL_1 40
      = (fbsFrame.take 39).drop 1 ++ [7] ++ fbsFrame.drop 39 ∧
    (fbsAfterIdle.receiveFbsFrames [] .CHANNEL_1 0 ⟨true, fbsFrame.drop 39, true⟩).result
      = .ret 0 ∧
    fbsWindow (fbsAfterNoise.receiveFbsFrames [] .CHANNEL_1 0
        ⟨true, fbsFrame.drop 39, true⟩).self .CHANNEL_1 40
      = fbsFrame.take 39 ++ fbsFrame.drop 39 ∧
    (fbsAfterNoise.receiveFbsFrames [] .CHANNEL_1 0 ⟨true, fbsFrame.drop 39, true⟩).result
      = .ret 1 := by
  refine ⟨by decide, by decide, by decide, by decide, by decide, by decide, by decide⟩

/-- C5 evaluated: a `receiveFbsFrames` call on CHANNEL_1 that reads 41 bytes changes
`rem_data_len` and `rem_data_start` from 0, 0 to 39, 2, the values the next call on
CHANNEL_2 relocates and appends with: a frame then read on CHANNEL_2 is stored at offset
39 and reported at 43, not at 4.  A `purgeSocket` on CHANNEL_2 sets both back to 0 while
CHANNEL_1 has 39 bytes pending. -/
theorem C5_carryover_shared_by_channels :
    (fbsReady.rem_data_len = 0 ∧ fbsReady.rem_data_start = 0) ∧
    (fbsAfterChannel1.rem_data_len = 39 ∧ fbsAfterChannel1.rem_data_start = 2) ∧
    (fbsReady.receiveFbsFrames [] .CHANNEL_2 0 ⟨true, fbsFrame, true⟩).frames = [4] ∧
    (fbsAfterChannel1.receiveFbsFrames [] .CHANNEL_2 0 ⟨true, fbsFrame, true⟩).frames = [43] ∧
    ((fbsAfterChannel1.purgeSocket .CHANNEL_2 ⟨true, [], true⟩).2.rem_data_len = 0 ∧
      (fbsAfterChannel1.purgeSocket .CHANNEL_2 ⟨true, [], true⟩).2.rem_data_start = 0) := by
  refine ⟨by decide, by decide, by decide, by decide, by decide⟩

/-- C6 evaluated: on a 40-byte window that holds no signature `receiveLppsFrames` returns
0 and leaves one reference (offset 0) in the list; on a window that is one valid frame
it returns 1 and leaves two references (offset 0 twice). -/
theorem C6_lpps_list_differs_from_count :
    (lppsReady.receiveLppsFrames [] .CHANNEL_1 0 ⟨true, List.replicate 40 9, true⟩).result
      = .ret 0 ∧
    (lppsReady.receiveLppsFrames [] .CHANNEL_1 0 ⟨true, List.replicate 40 9, true⟩).frames
      = [0] ∧
    lpps_receiver.isHeader (fun k => (List.replicate 40 9).getD k 0) 0 = false ∧
    (lppsReady.receiveLppsFrames [] .CHANNEL_1 0 ⟨true, lppsFrame, true⟩).result = .ret 1 ∧
    (lppsReady.receiveLppsFrames [] .CHANNEL_1 0 ⟨true, lppsFrame, true⟩).frames = [0, 0] := by
  refine ⟨by decide, by decide, by decide, by decide, by decide⟩

/-- C7 evaluated: called with `errors = 1`, a scan of exactly one valid frame (no fragment
pending) leaves `errors = 1`, the value a scan that stops with a pending fragment
leaves; called with `errors = 0` it leaves 0.  Both receivers. -/
theorem C7_errors_not_cleared :
    (fbsReady.receiveFbsFrames [] .CHANNEL_1 1 ⟨true, fbsFrame, true⟩).result = .ret 1 ∧
    (fbsReady.receiveFbsFrames [] .CHANNEL_1 1 ⟨true, fbsFrame, true⟩).errors = 1 ∧
    (fbsReady.receiveFbsFrames [] .CHANNEL_1 1 ⟨true, fbsFrame ++ [9], true⟩).errors = 1 ∧
    (fbsReady.receiveFbsFrames [] .CHANNEL_1 0 ⟨true, fbsFrame, true⟩).errors = 0 ∧
    (lppsReady.receiveLppsFrames [] .CHANNEL_1 1 ⟨true, lppsFrame, true⟩).result = .ret 1 ∧
    (lppsReady.receiveLppsFrames [] .CHANNEL_1 1 ⟨true, lppsFrame, true⟩).errors = 1 ∧
    (lppsReady.receiveLppsFrames [] .CHANNEL_1 1 ⟨true, lppsFrame ++ [9], true⟩).errors = 1 := by
  refine ⟨by decide, by decide, by decide, by decide, by decide, by decide, by decide⟩

open fbs_receiver in
/-- C8: on a channel with empty carryover, a window made of one valid 40-byte FBS frame
followed by `m` extra bytes, `1 ≤ m ≤ 39`, makes `receiveFbsFrames` return exactly one
frame and record a pending fragment of length `m` starting at offset 40, with `errors`
set to 1. -/
theorem C8_frame_then_fragment (self : FbsReceiver) (frames0 : List Nat)
    (channel : fbs_channels) (errors : Nat) (e : Bool) (frame extra : List Nat)
    (hstub : (self._data_socket channel).stubbed = false)
    (hcarry : self.rem_data_len = 0)
    (hframe : frame.length = 40 ∧ frame.take 4 = [0x01, 70, 66, 85])
    (hm : 1 ≤ extra.length ∧ extra.length ≤ 39) :
    (self.receiveFbsFrames frames0 channel errors ⟨true, frame ++ extra, e⟩).result = .ret 1 ∧
    (self.receiveFbsFrames frames0 channel errors ⟨true, frame ++ extra, e⟩).frames = [4] ∧
    (self.receiveFbsFrames frames0 channel errors ⟨true, frame ++ extra, e⟩).self.rem_data_len
      = extra.length ∧
    (self.receiveFbsFrames frames0 channel errors ⟨true, frame ++ extra, e⟩).self.rem_data_start
      = 40 ∧
    (self.receiveFbsFrames frames0 channel errors ⟨true, frame ++ extra, e⟩).errors = 1 := by
  obtain ⟨hlen, htake⟩ := hframe
  have hw : (frame ++ extra).length = 40 + extra.length := by
    rw [List.length_append, hlen]
  have hh : isHeader (recvInto (copy_n (self._data_socket channel)._nbbuffer
      self.rem_data_start 0) 0 (frame ++ extra)) 0 = true := by
    rw [isHeader_recvInto _ _ _ (by omega)]
    have hf : frame = [0x01, 70, 66, 85] ++ frame.drop 4 := by
      rw [← htake, List.take_append_drop]
    rw [hf]
    simp [isHeader]
  have hscan : scanLoop (recvInto (copy_n (self._data_socket channel)._nbbuffer
      self.rem_data_start 0) 0 (frame ++ extra)) (40 + extra.length) (40 + extra.length + 1)
      0 0 [] = .fragment 1 [4] extra.length 40 := by
    rw [show 40 + extra.length + 1 = (39 + extra.length) + 1 + 1 by omega,
      scanLoop_header _ _ _ 0 0 [] (by omega) (by omega) hh,
      scanLoop_fragment _ _ _ _ _ _ (by omega) (by omega) (by omega)]
    simp
  rw [receiveFbsFrames_data self frames0 channel errors ⟨true, frame ++ extra, e⟩ hstub rfl
    (by simp only [hw]; omega) (by simp only [hw, hcarry, MAX_PACKET_LENGTH]; omega)]
  simp only [hcarry, hw, Nat.zero_add, hscan]
  simp

/-- Witness of C8 at `m = 39`: one frame followed by 39 bytes. -/
theorem C8_frame_then_fragment_witness :
    (1 ≤ (List.replicate 39 9).length ∧ (List.replicate 39 9).length ≤ 39) ∧
    (fbsReady.receiveFbsFrames [] .CHANNEL_1 0 ⟨true, fbsFrame ++ List.replicate 39 9, true⟩).result
      = .ret 1 ∧
    (fbsReady.receiveFbsFrames [] .CHANNEL_1 0 ⟨true, fbsFrame ++ List.replicate 39 9, true⟩).frames
      = [4] ∧
    (fbsReady.receiveFbsFrames [] .CHANNEL_1 0
      ⟨true, fbsFrame ++ List.replicate 39 9, true⟩).self.rem_data_len = 39 ∧
    (fbsReady.receiveFbsFrames [] .CHANNEL_1 0
      ⟨true, fbsFrame ++ List.replicate 39 9, true⟩).self.rem_data_start = 40 ∧
    (fbsReady.receiveFbsFrames [] .CHANNEL_1 0 ⟨true, fbsFrame ++ List.replicate 39 9, true⟩).errors
      = 1 :=
  ⟨by decide,
    C8_frame_then_fragment fbsReady [] .CHANNEL_1 0 true fbsFrame (List.replicate 39 9)
      rfl rfl (by decide) (by decide)⟩

open fbs_receiver in
/-- C9 (resynchronisation): on a channel with empty carryover, for a window of at most
8000 bytes in which the signature `0x01 'F' 'B' 'U'` matches at no offset below `g`
(`g ≥ 1`) and matches at offset `g` with a complete frame there (`write_end - g ≥ 40`),
`receiveFbsFrames` returns at least one frame, the first reference it emits is `g + 4`,
and no reference is below `g + 4`. -/
theorem C9_resynchronisation (self : FbsReceiver) (frames0 : List Nat)
    (channel : fbs_channels) (errors : Nat) (e : Bool) (w : List Nat) (g : Nat)
    (hstub : (self._data_socket channel).stubbed = false)
    (hcarry : self.rem_data_len = 0)
    (hg : 1 ≤ g) (hw : w.length ≤ 8000) (hfull : g + 40 ≤ w.length)
    (hno : ∀ i < g, isHeader (fun k => w.getD k 0) i = false)
    (hhdr : isHeader (fun k => w.getD k 0) g = true) :
    (∃ n, (self.receiveFbsFrames frames0 channel errors ⟨true, w, e⟩).result = .ret (n + 1)) ∧
    (self.receiveFbsFrames frames0 channel errors ⟨true, w, e⟩).frames.head? = some (g + 4) ∧
    ∀ f ∈ (self.receiveFbsFrames frames0 channel errors ⟨true, w, e⟩).frames, g + 4 ≤ f := by
  have hne : 0 < (⟨true, w, e⟩ : SockEnv).avail.length := by show 0 < w.length; omega
  have hfit : self.rem_data_len + (⟨true, w, e⟩ : SockEnv).avail.length ≤ MAX_PACKET_LENGTH := by
    show self.rem_data_len + w.length ≤ MAX_PACKET_LENGTH
    simp only [hcarry, MAX_PACKET_LENGTH]; omega
  have hrun : scanLoop (recvInto (copy_n (self._data_socket channel)._nbbuffer
      self.rem_data_start 0) 0 w) w.length (w.length + 1) 0 0 []
      = scanLoop (recvInto (copy_n (self._data_socket channel)._nbbuffer
          self.rem_data_start 0) 0 w) w.length (w.length - g) (g + 40) 1 [g + 4] := by
    rw [show w.length + 1 = (w.length - g + 1) + g by omega,
      scanLoop_skip_run _ _ hw g _ 0 0 []
        (by
          intro j hj
          rw [Nat.zero_add, isHeader_recvInto _ _ _ (by omega)]
          exact hno j hj)
        (by omega),
      Nat.zero_add,
      scanLoop_header _ _ _ g 0 [] hw (by omega)
        (by rw [isHeader_recvInto _ _ _ (by omega)]; exact hhdr)]
    rfl
  obtain ⟨ex, h1, -, h3, h4, h5⟩ := scanLoop_exit (recvInto (copy_n
    (self._data_socket channel)._nbbuffer self.rem_data_start 0) 0 w) w.length
    (w.length - g) (g + 40) 1 [g + 4] (by omega)
  have hfr := receiveFbsFrames_data_frames self frames0 channel errors ⟨true, w, e⟩ hstub rfl
    hne hfit
  have hres := receiveFbsFrames_data_result self frames0 channel errors ⟨true, w, e⟩ hstub rfl
    hne hfit
  simp only [hcarry, Nat.zero_add, hrun] at hfr hres
  rw [hfr, hres h5, h3, h4]
  refine ⟨⟨ex.length, by rw [Nat.add_comm]⟩, rfl, ?_⟩
  intro f hf
  rcases List.mem_append.1 hf with hf | hf
  · simp only [List.mem_singleton] at hf; omega
  · have := h1 f hf; omega

/-- Witness of C9: a stray `0x01` one byte before a frame; the frame at offset 1 is found. -/
theorem C9_resynchronisation_witness :
    (1 ≤ 1 ∧ 1 + 40 ≤ ([0x01] ++ fbsFrame).length) ∧
    (∃ n, (fbsReady.receiveFbsFrames [] .CHANNEL_1 0 ⟨true, [0x01] ++ fbsFrame, true⟩).result
      = .ret (n + 1)) ∧
    (fbsReady.receiveFbsFrames [] .CHANNEL_1 0 ⟨true, [0x01] ++ fbsFrame, true⟩).frames.head?
      = some (1 + 4) ∧
    ∀ f ∈ (fbsReady.receiveFbsFrames [] .CHANNEL_1 0 ⟨true, [0x01] ++ fbsFrame, true⟩).frames,
      1 + 4 ≤ f :=
  ⟨by decide,
    C9_resynchronisation fbsReady [] .CHANNEL_1 0 true ([0x01] ++ fbsFrame) 1 rfl rfl
      (by decide) (by decide) (by decide) (by decide) (by decide)⟩

open fbs_receiver in
/-- C10 (stream order): the payload references emitted by one `receiveFbsFrames` call
are in increasing order of buffer offset and any two of them are at least 40 apart. -/
theorem C10_stream_order (self : FbsReceiver) (frames0 : List Nat) (channel : fbs_channels)
    (errors : Nat) (env : SockEnv) :
    List.Pairwise (fun a b => a + 40 ≤ b)
      (self.receiveFbsFrames frames0 channel errors env).frames := by
  rcases receiveFbsFrames_frames self frames0 channel errors env with h | ⟨data, we, h⟩
  · rw [h]; exact List.Pairwise.nil
  · obtain ⟨ex, -, h2, h3, -, -⟩ := scanLoop_exit data we (we + 1) 0 0 [] (by omega)
    rw [h, h3]
    simpa using h2

open fbs_receiver lpps_receiver in
/-- C11: on a stubbed data channel every `receiveFbsFrames` / `receiveLppsFrames` call
returns 0 with an empty frame list whatever the socket would answer, and leaves the
receiver object (the channel buffer, `rem_data_len`, `rem_data_start` and everything
else) as it was; so does any sequence of such calls, after which a further call again
returns 0 with an empty list. -/
theorem C11_stubbed_channel_pull (fs : FbsReceiver) (ls : LppsReceiver)
    (fch : fbs_channels) (lch : lpps_channels)
    (calls : List (List Nat × Nat × SockEnv)) (frames0 : List Nat) (errors : Nat)
    (env : SockEnv)
    (hf : (fs._data_socket fch).stubbed = true) (hl : (ls._data_socket lch).stubbed = true) :
    (fs.receiveFbsFrames frames0 fch errors env).result = .ret 0 ∧
    (fs.receiveFbsFrames frames0 fch errors env).frames = [] ∧
    (fs.receiveFbsFrames frames0 fch errors env).self = fs ∧
    calls.foldl (fun s c => (s.receiveFbsFrames c.1 fch c.2.1 c.2.2).self) fs = fs ∧
    (ls.receiveLppsFrames frames0 lch errors env).result = .ret 0 ∧
    (ls.receiveLppsFrames frames0 lch errors env).frames = [] ∧
    (ls.receiveLppsFrames frames0 lch errors env).self = ls ∧
    calls.foldl (fun s c => (s.receiveLppsFrames c.1 lch c.2.1 c.2.2).self) ls = ls := by
  have hfs : ∀ c : List Nat × Nat × SockEnv,
      (fs.receiveFbsFrames c.1 fch c.2.1 c.2.2).self = fs := fun c => by
    rw [receiveFbsFrames_stubbed fs c.1 fch c.2.1 c.2.2 hf]
  have hls : ∀ c : List Nat × Nat × SockEnv,
      (ls.receiveLppsFrames c.1 lch c.2.1 c.2.2).self = ls := fun c => by
    rw [receiveLppsFrames_stubbed ls c.1 lch c.2.1 c.2.2 hl]
  rw [receiveFbsFrames_stubbed fs frames0 fch errors env hf,
    receiveLppsFrames_stubbed ls frames0 lch errors env hl]
  refine ⟨rfl, rfl, rfl, ?_, rfl, rfl, rfl, ?_⟩
  · induction calls with
    | nil => rfl
    | cons c cs ih => rw [List.foldl_cons, hfs c]; exact ih
  · induction calls with
    | nil => rfl
    | cons c cs ih => rw [List.foldl_cons, hls c]; exact ih

/-- Witness of C11: freshly constructed receivers, whose channels are stubbed. -/
theorem C11_stubbed_channel_pull_witness :
    ((fbsFresh._data_socket .CHANNEL_1).stubbed = true ∧
      (lppsFresh._data_socket .CHANNEL_2).stubbed = true) ∧
    (fbsFresh.receiveFbsFrames [4] .CHANNEL_1 1 ⟨true, fbsFrame, true⟩).result = .ret 0 ∧
    (fbsFresh.receiveFbsFrames [4] .CHANNEL_1 1 ⟨true, fbsFrame, true⟩).frames = [] ∧
    (fbsFresh.receiveFbsFrames [4] .CHANNEL_1 1 ⟨true, fbsFrame, true⟩).self = fbsFresh ∧
    [([], 0, (⟨true, fbsFrame, true⟩ : net.SockEnv)), ([4], 1, ⟨false, [], false⟩)].foldl
      (fun s c => (s.receiveFbsFrames c.1 .CHANNEL_1 c.2.1 c.2.2).self) fbsFresh = fbsFresh ∧
    (lppsFresh.receiveLppsFrames [4] .CHANNEL_2 1 ⟨true, fbsFrame, true⟩).result = .ret 0 ∧
    (lppsFresh.receiveLppsFrames [4] .CHANNEL_2 1 ⟨true, fbsFrame, true⟩).frames = [] ∧
    (lppsFresh.receiveLppsFrames [4] .CHANNEL_2 1 ⟨true, fbsFrame, true⟩).self = lppsFresh ∧
    [([], 0, (⟨true, fbsFrame, true⟩ : net.SockEnv)), ([4], 1, ⟨false, [], false⟩)].foldl
      (fun s c => (s.receiveLppsFrames c.1 .CHANNEL_2 c.2.1 c.2.2).self) lppsFresh
      = lppsFresh :=
  ⟨⟨rfl, rfl⟩,
    C11_stubbed_channel_pull fbsFresh lppsFresh .CHANNEL_1 .CHANNEL_2
      [([], 0, ⟨true, fbsFrame, true⟩), ([4], 1, ⟨false, [], false⟩)] [4] 1
      ⟨true, fbsFrame, true⟩ rfl rfl⟩

open fbs_receiver lpps_receiver in
/-- C12 (`readAcqAsync` reply parsing): on a connected control endpoint, when the
non-blocking receive yields exactly the 4 bytes `b0 b1 b2 b3` the result is code 0 with
the pair `(b0 == '1', b2 == '1')`; when it yields any other number of bytes (none
included) the result is `NET_ERROR` with the pair `(false, false)`.  Both receivers. -/
theorem C12_readAcqAsync_reply (fs : FbsReceiver) (ls : LppsReceiver) (acq : Bool × Bool)
    (e : Bool) (b0 b1 b2 b3 : Nat) (other : List Nat)
    (hf : fs._main_socket.stubbed = false) (hl : ls._main_socket.stubbed = false)
    (hother : other.length ≠ 4) :
    ((fs.readAcqAsync acq ⟨true, [b0, b1, b2, b3], e⟩).1 = .ret 0 ∧
      (fs.readAcqAsync acq ⟨true, [b0, b1, b2, b3], e⟩).2.1 = (b0 == 49, b2 == 49)) ∧
    ((fs.readAcqAsync acq ⟨true, other, true⟩).1 = .ret fbs_receiver.NET_ERROR ∧
      (fs.readAcqAsync acq ⟨true, other, true⟩).2.1 = (false, false)) ∧
    ((ls.readAcqAsync acq true ⟨true, [b0, b1, b2, b3], e⟩).1 = 0 ∧
      (ls.readAcqAsync acq true ⟨true, [b0, b1, b2, b3], e⟩).2.1 = (b0 == 49, b2 == 49)) ∧
    ((ls.readAcqAsync acq true ⟨true, other, true⟩).1 = lpps_receiver.NET_ERROR ∧
      (ls.readAcqAsync acq true ⟨true, other, true⟩).2.1 = (false, false)) := by
  obtain ⟨n, dev, hn, -, hr⟩ := receiveNB_other fs._main_socket other hf hother
  obtain ⟨n', dev', hn', -, hr'⟩ := receiveNB_other ls._main_socket other hl hother
  refine ⟨?_, ?_, ?_, ?_⟩
  · simp [FbsReceiver.readAcqAsync, receiveNB_four _ e b0 b1 b2 b3 hf, recvInto]
  · simp [FbsReceiver.readAcqAsync, hr, hn]
  · simp [LppsReceiver.readAcqAsync, NetDevice.isConnected, NetDevice.isStubbed, hl,
      receiveNB_four _ e b0 b1 b2 b3 hl, recvInto]
  · simp [LppsReceiver.readAcqAsync, NetDevice.isConnected, NetDevice.isStubbed, hl, hr', hn']

/-- Witness of C12: the reply `'1' ',' '0' '\n'` parses to `(true, false)`; a 3-byte
reply gives `NET_ERROR` and `(false, false)`. -/
theorem C12_readAcqAsync_reply_witness :
    ([49, 44, 48].length ≠ 4) ∧
    ((fbsReady.readAcqAsync (false, true) ⟨true, [49, 44, 48, 10], true⟩).1 = .ret 0 ∧
      (fbsReady.readAcqAsync (false, true) ⟨true, [49, 44, 48, 10], true⟩).2.1
        = (true, false)) ∧
    ((fbsReady.readAcqAsync (false, true) ⟨true, [49, 44, 48], true⟩).1 = .ret 1 ∧
      (fbsReady.readAcqAsync (false, true) ⟨true, [49, 44, 48], true⟩).2.1 = (false, false)) ∧
    ((lppsReady.readAcqAsync (false, true) true ⟨true, [49, 44, 48, 10], true⟩).1 = 0 ∧
      (lppsReady.readAcqAsync (false, true) true ⟨true, [49, 44, 48, 10], true⟩).2.1
        = (true, false)) ∧
    ((lppsReady.readAcqAsync (false, true) true ⟨true, [49, 44, 48], true⟩).1 = 1 ∧
      (lppsReady.readAcqAsync (false, true) true ⟨true, [49, 44, 48], true⟩).2.1
        = (false, false)) :=
  ⟨by decide,
    C12_readAcqAsync_reply fbsReady lppsReady (false, true) true 49 44 48 10 [49, 44, 48]
      rfl rfl (by decide)⟩

/-- C13 as stated fails: on connected control endpoints, with the query sent and no reply
there yet (`recv` would block), `readAcqAsync` returns `NET_ERROR`. -/
theorem C13_no_reply_returns_NET_ERROR :
    fbsReady._main_socket.stubbed = false ∧
    ((fbsReady.queryAcqAsync true ⟨true, 7⟩).2.readAcqAsync (false, false)
      ⟨true, [], true⟩).1 = .ret fbs_receiver.NET_ERROR ∧
    ((lppsReady.queryAcqAsync true ⟨true, 7⟩).2.readAcqAsync (false, false) true
      ⟨true, [], true⟩).1 = lpps_receiver.NET_ERROR := by
  refine ⟨by decide, by decide, by decide⟩

open fbs_receiver lpps_receiver in
/-- C13 (amended): when the control endpoint is connected, the query has been sent and
the reply has not arrived yet (the non-blocking receive would block, zero bytes),
`readAcqAsync` called right after `queryAcqAsync` returns `NET_ERROR` with the pair
`(false, false)`; it raises no exception and the endpoint is still not stubbed.  Both
receivers. -/
theorem C13_no_reply_outcome (fs : FbsReceiver) (ls : LppsReceiver) (acq : Bool × Bool)
    (hf : fs._main_socket.stubbed = false) (hl : ls._main_socket.stubbed = false) :
    (((fs.queryAcqAsync true ⟨true, 7⟩).2.readAcqAsync acq ⟨true, [], true⟩).1
        = .ret fbs_receiver.NET_ERROR ∧
      ((fs.queryAcqAsync true ⟨true, 7⟩).2.readAcqAsync acq ⟨true, [], true⟩).2.1
        = (false, false) ∧
      ((fs.queryAcqAsync true ⟨true, 7⟩).2.readAcqAsync acq
        ⟨true, [], true⟩).2.2._main_socket.stubbed = false) ∧
    (((ls.queryAcqAsync true ⟨true, 7⟩).2.readAcqAsync acq true ⟨true, [], true⟩).1
        = lpps_receiver.NET_ERROR ∧
      ((ls.queryAcqAsync true ⟨true, 7⟩).2.readAcqAsync acq true ⟨true, [], true⟩).2.1
        = (false, false) ∧
      ((ls.queryAcqAsync true ⟨true, 7⟩).2.readAcqAsync acq true
        ⟨true, [], true⟩).2.2._main_socket.stubbed = false) := by
  rw [fbs_receiver.queryAcqAsync_sent fs hf, lpps_receiver.lpps_queryAcqAsync_sent ls hl]
  simp [FbsReceiver.readAcqAsync, LppsReceiver.readAcqAsync, receiveNB_would_block, hf, hl,
    NetDevice.isConnected, NetDevice.isStubbed]

/-- Witness of the amended C13 on receivers with connected control endpoints. -/
theorem C13_no_reply_outcome_witness :
    (fbsReady._main_socket.stubbed = false ∧ lppsReady._main_socket.stubbed = false) ∧
    (((fbsReady.queryAcqAsync true ⟨true, 7⟩).2.readAcqAsync (true, true) ⟨true, [], true⟩).1
        = .ret 1 ∧
      ((fbsReady.queryAcqAsync true ⟨true, 7⟩).2.readAcqAsync (true, true) ⟨true, [], true⟩).2.1
        = (false, false) ∧
      ((fbsReady.queryAcqAsync true ⟨true, 7⟩).2.readAcqAsync (true, true)
        ⟨true, [], true⟩).2.2._main_socket.stubbed = false) ∧
    (((lppsReady.queryAcqAsync true ⟨true, 7⟩).2.readAcqAsync (true, true) true
        ⟨true, [], true⟩).1 = 1 ∧
      ((lppsReady.queryAcqAsync true ⟨true, 7⟩).2.readAcqAsync (true, true) true
        ⟨true, [], true⟩).2.1 = (false, false) ∧
      ((lppsReady.queryAcqAsync true ⟨true, 7⟩).2.readAcqAsync (true, true) true
        ⟨true, [], true⟩).2.2._main_socket.stubbed = false) :=
  ⟨⟨rfl, rfl⟩, C13_no_reply_outcome fbsReady lppsReady (true, true) rfl rfl⟩

open fbs_receiver lpps_receiver in
/-- C14 evaluated: `queryAcqAsync` returns `NET_ERROR` for every receiver state and every
answer of the socket, also when the control endpoint is connected and `send` takes all
7 bytes (the local `bytes_send` is never assigned after `= 0`), and the LPPS flag
`async_task` keeps the value it had. -/
theorem C14_queryAcqAsync_always_NET_ERROR :
    (fbsReady._main_socket.stubbed = false ∧
      (fbsReady.queryAcqAsync true ⟨true, 7⟩).1 = fbs_receiver.NET_ERROR) ∧
    (lppsReady.async_task = false ∧
      (lppsReady.queryAcqAsync true ⟨true, 7⟩).1 = lpps_receiver.NET_ERROR ∧
      (lppsReady.queryAcqAsync true ⟨true, 7⟩).2.async_task = false) ∧
    (∀ (fs : FbsReceiver) (alive : Bool) (tx : SendEnv),
      (fs.queryAcqAsync alive tx).1 = fbs_receiver.NET_ERROR) ∧
    (∀ (ls : LppsReceiver) (alive : Bool) (tx : SendEnv),
      (ls.queryAcqAsync alive tx).1 = lpps_receiver.NET_ERROR ∧
      (ls.queryAcqAsync alive tx).2.async_task = ls.async_task) := by
  refine ⟨by decide, by decide, ?_, ?_⟩
  · intro fs alive tx
    unfold FbsReceiver.queryAcqAsync
    split
    · rfl
    · simp only []
      split <;> simp
  · intro ls alive tx
    unfold LppsReceiver.queryAcqAsync
    split
    · exact ⟨rfl, rfl⟩
    · simp only []
      split <;> simp

/-- C15 as stated fails: with `async_task` set and a 3-byte reply on a connected control
endpoint, `LppsReceiver::readAcqAsync` returns `NET_ERROR` and `async_task` is still
true. -/
theorem C15_flag_kept_on_failure :
    lppsAwaiting.async_task = true ∧
    (lppsAwaiting.readAcqAsync (false, false) true ⟨true, [49, 44, 48], true⟩).1
      = lpps_receiver.NET_ERROR ∧
    (lppsAwaiting.readAcqAsync (false, false) true
      ⟨true, [49, 44, 48], true⟩).2.2.async_task = true := by
  refine ⟨by decide, by decide, by decide⟩

open lpps_receiver in
/-- C15 (amended): for every state of the LPPS adapter and every answer of the
control-channel socket, `LppsReceiver::readAcqAsync` either returns 0 and leaves
`async_task` false, or returns `NET_ERROR` and leaves `async_task` as it was on entry. -/
theorem C15_flag_cleared_on_success (ls : LppsReceiver) (acq : Bool × Bool) (alive : Bool)
    (env : SockEnv) :
    ((ls.readAcqAsync acq alive env).1 = 0 ∧
      (ls.readAcqAsync acq alive env).2.2.async_task = false) ∨
    ((ls.readAcqAsync acq alive env).1 = NET_ERROR ∧
      (ls.readAcqAsync acq alive env).2.2.async_task = ls.async_task) := by
  unfold LppsReceiver.readAcqAsync
  split
  · exact Or.inr ⟨rfl, rfl⟩
  · split
    · simp only []
      split
      · exact Or.inr ⟨rfl, rfl⟩
      · exact Or.inl ⟨rfl, rfl⟩
    · exact Or.inr ⟨rfl, rfl⟩

set_option maxRecDepth 100000 in
/-- C16 evaluated: when the synchronous `recv` of `sendIdnQuery` returns `-1` with
`EAGAIN` (receive timeout, nothing received), `receive` returns `-1`, which becomes
4294967295 in `const uint32_t bytesReceived`; neither `bytesReceived < IDN_ACK_SIZE` nor
`!bytesReceived` holds and `sendIdnQuery` returns a string instead of throwing.  With 0
or 28 bytes received it throws, with 29 it returns.  Both receivers. -/
theorem C16_timeout_reply_accepted :
    toUInt32 (-1) = 4294967295 ∧
    (fbsReady._main_socket.receive ⟨true, [], false, true⟩).1 = .ret (-1) ∧
    (fbsReady.sendIdnQuery ⟨true, 7⟩ ⟨true, [], false, true⟩).1 ≠ .thrown ∧
    (lppsReady.sendIdnQuery ⟨true, 7⟩ ⟨true, [], false, true⟩).1 ≠ .thrown ∧
    (fbsReady.sendIdnQuery ⟨true, 7⟩ ⟨true, [], true, true⟩).1 = .thrown ∧
    (fbsReady.sendIdnQuery ⟨true, 7⟩ ⟨true, List.replicate 28 65, false, true⟩).1 = .thrown ∧
    (fbsReady.sendIdnQuery ⟨true, 7⟩ ⟨true, List.replicate 29 65, false, true⟩).1 ≠ .thrown := by
  refine ⟨by decide, by decide, by decide, by decide, by decide, by decide, by decide⟩

set_option maxRecDepth 100000 in
/-- C17 as stated fails: on a connected endpoint a short `send` (3 of 7 bytes) makes
`transmit` throw, and a `recv` error other than would-block makes `receive` and
`receiveNB` throw, but the endpoint's `stubbed` flag is false afterwards. -/
theorem C17_stubbed_not_set_by_io_error :
    connectedDevice.stubbed = false ∧
    ((connectedDevice.transmit 7 ⟨true, 3⟩).1 = .thrown ∧
      (connectedDevice.transmit 7 ⟨true, 3⟩).2.stubbed = false) ∧
    ((connectedDevice.transmit 7 ⟨true, -1⟩).1 = .thrown ∧
      (connectedDevice.transmit 7 ⟨true, -1⟩).2.stubbed = false) ∧
    ((connectedDevice.receive ⟨true, [], false, false⟩).1 = .thrown ∧
      (connectedDevice.receive ⟨true, [], false, false⟩).2.stubbed = false) ∧
    ((connectedDevice.receiveNB 0 ⟨true, [], false⟩).1 = .thrown ∧
      (connectedDevice.receiveNB 0 ⟨true, [], false⟩).2.stubbed = false) := by
  refine ⟨by decide, by decide, by decide, by decide, by decide⟩

/-- C17 (amended): for every connected (non-stubbed) endpoint and every failing I/O
outcome — a short or failed `send` in `transmit`, a `recv` error other than would-block
in `receive` or `receiveNB`, or a failed liveness check in any of the three — the
operation throws; after a failed liveness check the endpoint's `stubbed` flag is true. -/
theorem C17_io_failure_throws (d : NetDevice) (size write_index : Nat) (sent : Int)
    (avail : List Nat) (eof e : Bool)
    (hs : d.stubbed = false) (hshort : toSize sent ≠ size) :
    (d.transmit size ⟨true, sent⟩).1 = .thrown ∧
    (d.receive ⟨true, [], false, false⟩).1 = .thrown ∧
    (d.receiveNB write_index ⟨true, [], false⟩).1 = .thrown ∧
    ((d.transmit size ⟨false, sent⟩).1 = .thrown ∧
      (d.transmit size ⟨false, sent⟩).2.stubbed = true) ∧
    ((d.receive ⟨false, avail, eof, e⟩).1 = .thrown ∧
      (d.receive ⟨false, avail, eof, e⟩).2.stubbed = true) ∧
    ((d.receiveNB write_index ⟨false, avail, e⟩).1 = .thrown ∧
      (d.receiveNB write_index ⟨false, avail, e⟩).2.stubbed = true) := by
  simp [NetDevice.transmit, NetDevice.receive, NetDevice.receiveNB, NetDevice.isConnected,
    hs, hshort]

/-- Witness of the amended C17 on a connected endpoint with a send of 3 of 7 bytes. -/
theorem C17_io_failure_throws_witness :
    (connectedDevice.stubbed = false ∧ toSize 3 ≠ 7) ∧
    (connectedDevice.transmit 7 ⟨true, 3⟩).1 = .thrown ∧
    (connectedDevice.receive ⟨true, [], false, false⟩).1 = .thrown ∧
    (connectedDevice.receiveNB 5 ⟨true, [], false⟩).1 = .thrown ∧
    ((connectedDevice.transmit 7 ⟨false, 3⟩).1 = .thrown ∧
      (connectedDevice.transmit 7 ⟨false, 3⟩).2.stubbed = true) ∧
    ((connectedDevice.receive ⟨false, [1], false, true⟩).1 = .thrown ∧
      (connectedDevice.receive ⟨false, [1], false, true⟩).2.stubbed = true) ∧
    ((connectedDevice.receiveNB 5 ⟨false, [1], true⟩).1 = .thrown ∧
      (connectedDevice.receiveNB 5 ⟨false, [1], true⟩).2.stubbed = true) :=
  ⟨by decide, C17_io_failure_throws connectedDevice 7 5 3 [1] false true rfl (by decide)⟩

open fbs_receiver lpps_receiver in
/-- C18 evaluated: `connect_channel` calls `connect(hostname, data_port, false)`, where
`false` is the `int timeout` argument (0) and `blocking` keeps its default `true`: after
a `connect_channel` that completes, the channel's endpoint has `blocking = true`; this
holds for every receiver state, channel and answer of the operating system, and a
`connect_channel` that does not complete throws and leaves the endpoint stubbed. -/
theorem C18_data_channel_left_blocking :
    boolToInt false = 0 ∧
    ((fbsFresh.connect_channel "fbs" .CHANNEL_1 5031 ⟨3, 0, true⟩).1 = .ret () ∧
      ((fbsFresh.connect_channel "fbs" .CHANNEL_1 5031 ⟨3, 0, true⟩).2._data_socket
        .CHANNEL_1).blocking = true) ∧
    ((lppsFresh.connect_channel "lpps" .CHANNEL_2 5032 ⟨3, 0, true⟩).1 = .ret () ∧
      ((lppsFresh.connect_channel "lpps" .CHANNEL_2 5032 ⟨3, 0, true⟩).2._data_socket
        .CHANNEL_2).blocking = true) ∧
    (∀ (fs : FbsReceiver) (host : String) (ch : fbs_channels) (port : Int) (env : ConnEnv),
      ((fs.connect_channel host ch port env).1 = .ret () ∧
        ((fs.connect_channel host ch port env).2._data_socket ch).blocking = true) ∨
      ((fs.connect_channel host ch port env).1 = .thrown ∧
        ((fs.connect_channel host ch port env).2._data_socket ch).stubbed = true)) ∧
    (∀ (ls : LppsReceiver) (host : String) (ch : lpps_channels) (port : Int) (env : ConnEnv),
      ((ls.connect_channel host ch port env).1 = .ret () ∧
        ((ls.connect_channel host ch port env).2._data_socket ch).blocking = true) ∨
      ((ls.connect_channel host ch port env).1 = .thrown ∧
        ((ls.connect_channel host ch port env).2._data_socket ch).stubbed = true)) := by
  refine ⟨by decide, by decide, by decide, ?_, ?_⟩
  · intro fs host ch port env
    unfold FbsReceiver.connect_channel
    rcases connect_unstubbed (fs._data_socket ch) host port (boolToInt false) true env with
      ⟨h1, h2, -⟩ | ⟨h1, h2⟩
    · left
      revert h1 h2
      generalize ((fs._data_socket ch).setStubbed false).connect host port (boolToInt false)
        true env = r
      rcases r with ⟨o, dev⟩
      intro h1 h2
      simp only at h1 h2
      subst h1
      simp [h2]
    · right
      revert h1 h2
      generalize ((fs._data_socket ch).setStubbed false).connect host port (boolToInt false)
        true env = r
      rcases r with ⟨o, dev⟩
      intro h1 h2
      simp only at h1 h2
      subst h1
      simp [h2]
  · intro ls host ch port env
    unfold LppsReceiver.connect_channel
    rcases connect_unstubbed (ls._data_socket ch) host port (boolToInt false) true env with
      ⟨h1, h2, -⟩ | ⟨h1, h2⟩
    · left
      revert h1 h2
      generalize ((ls._data_socket ch).setStubbed false).connect host port (boolToInt false)
        true env = r
      rcases r with ⟨o, dev⟩
      intro h1 h2
      simp only at h1 h2
      subst h1
      simp [h2]
    · right
      revert h1 h2
      generalize ((ls._data_socket ch).setStubbed false).connect host port (boolToInt false)
        true env = r
      rcases r with ⟨o, dev⟩
      intro h1 h2
      simp only at h1 h2
      subst h1
      simp [h2]

open fbs_receiver lpps_receiver in
/-- C19 (carryover invariant): after every finite sequence of `connect_channel`,
`receiveFbsFrames` / `receiveLppsFrames` and `purgeSocket` calls on a freshly
constructed adapter, on any channels and with any answers of the operating system,
`rem_data_len < 40` and `rem_data_start + rem_data_len ≤ 8000`. -/
theorem C19_carryover_invariant (nbMain nb1 nb2 : NetBuffer) (blMain bl1 bl2 : Bool)
    (fcalls : List FbsCall) (lcalls : List LppsCall) :
    ((fcalls.foldl FbsCall.apply
        (FbsReceiver.create nbMain nb1 nb2 blMain bl1 bl2)).rem_data_len < 40 ∧
      (fcalls.foldl FbsCall.apply
        (FbsReceiver.create nbMain nb1 nb2 blMain bl1 bl2)).rem_data_start
      + (fcalls.foldl FbsCall.apply
        (FbsReceiver.create nbMain nb1 nb2 blMain bl1 bl2)).rem_data_len ≤ 8000) ∧
    ((lcalls.foldl LppsCall.apply
        (LppsReceiver.create nbMain nb1 nb2 blMain bl1 bl2)).rem_data_len < 40 ∧
      (lcalls.foldl LppsCall.apply
        (LppsReceiver.create nbMain nb1 nb2 blMain bl1 bl2)).rem_data_start
      + (lcalls.foldl LppsCall.apply
        (LppsReceiver.create nbMain nb1 nb2 blMain bl1 bl2)).rem_data_len ≤ 8000) :=
  ⟨FbsCall.foldl_carryover fcalls _ (by simp [FbsReceiver.create]),
    LppsCall.lpps_foldl_carryover lcalls _ (by simp [LppsReceiver.create])⟩

open fbs_receiver in
/-- C20 (two-read reassembly): on a channel with empty carryover, for every byte
sequence of at most 8000 bytes cut into two non-empty chunks, the two
`receiveFbsFrames` calls that receive the chunks both return, and the references of the
first call followed by those of the second, each taken at its position in the stream
(the second call's window starts `chunk1.length - rem_data_len` bytes into the stream),
are exactly the references a single call returns when it receives the whole sequence in
one read; the frame counts add up. -/
theorem C20_two_read_reassembly (self : FbsReceiver) (frames0 : List Nat)
    (channel : fbs_channels) (errors : Nat) (e : Bool) (chunk1 chunk2 : List Nat)
    (hstub : (self._data_socket channel).stubbed = false)
    (hcarry : self.rem_data_len = 0)
    (h1 : chunk1 ≠ []) (h2 : chunk2 ≠ [])
    (hlen : chunk1.length + chunk2.length ≤ 8000) :
    let r1 := self.receiveFbsFrames frames0 channel errors ⟨true, chunk1, e⟩
    let r2 := r1.self.receiveFbsFrames r1.frames channel r1.errors ⟨true, chunk2, e⟩
    let rAll := self.receiveFbsFrames frames0 channel errors ⟨true, chunk1 ++ chunk2, e⟩
    (∃ n1 n2, r1.result = .ret n1 ∧ r2.result = .ret n2 ∧ rAll.result = .ret (n1 + n2)) ∧
    r1.frames ++ r2.frames.map (fun x => x + (chunk1.length - r1.self.rem_data_len))
      = rAll.frames := by
  intro r1 r2 rAll
  have hl1 : 0 < chunk1.length := List.length_pos.2 h1
  have hl2 : 0 < chunk2.length := List.length_pos.2 h2
  -- the single read
  have hneA : 0 < (⟨true, chunk1 ++ chunk2, e⟩ : SockEnv).avail.length := by
    show 0 < (chunk1 ++ chunk2).length
    rw [List.length_append]; omega
  have hfitA : self.rem_data_len + (⟨true, chunk1 ++ chunk2, e⟩ : SockEnv).avail.length
      ≤ MAX_PACKET_LENGTH := by
    show self.rem_data_len + (chunk1 ++ chunk2).length ≤ MAX_PACKET_LENGTH
    simp only [hcarry, MAX_PACKET_LENGTH, List.length_append]; omega
  have hfrA := receiveFbsFrames_data_frames self frames0 channel errors
    ⟨true, chunk1 ++ chunk2, e⟩ hstub rfl hneA hfitA
  have hresA := receiveFbsFrames_data_result self frames0 channel errors
    ⟨true, chunk1 ++ chunk2, e⟩ hstub rfl hneA hfitA
  simp only [hcarry, Nat.zero_add, List.length_append] at hfrA hresA
  -- the first read
  obtain ⟨j, n', fr', hj, hr1, hf1, hs1, hb1, hlen1, hstart1, hcont⟩ :
      ∃ (j n' : Nat) (fr' : List Nat), j ≤ chunk1.length ∧ r1.result = .ret n' ∧
        r1.frames = fr' ∧ (r1.self._data_socket channel).stubbed = false ∧
        (∀ k < chunk1.length, (r1.self._data_socket channel)._nbbuffer k = chunk1.getD k 0) ∧
        r1.self.rem_data_len = chunk1.length - j ∧
        (r1.self.rem_data_len = 0 ∨ r1.self.rem_data_start = j) ∧
        scanLoop (recvInto (copy_n (self._data_socket channel)._nbbuffer self.rem_data_start
            0) 0 (chunk1 ++ chunk2)) (chunk1.length + chunk2.length)
          (chunk1.length + chunk2.length + 1) 0 0 []
          = scanLoop (recvInto (copy_n (self._data_socket channel)._nbbuffer
              self.rem_data_start 0) 0 (chunk1 ++ chunk2)) (chunk1.length + chunk2.length)
            (chunk1.length + chunk2.length - j + 1) j n' fr' :=
    first_read self frames0 channel errors e chunk1
      (recvInto (copy_n (self._data_socket channel)._nbbuffer self.rem_data_start 0) 0
        (chunk1 ++ chunk2))
      (chunk1.length + chunk2.length) hstub hcarry hl1 (by omega) hlen
      (fun k hk => by
        rw [recvInto_zero _ _ _ (by rw [List.length_append]; omega),
          List.getD_append _ _ _ _ hk])
  -- the second read
  have hfit2 : r1.self.rem_data_len + (⟨true, chunk2, e⟩ : SockEnv).avail.length
      ≤ MAX_PACKET_LENGTH := by
    show r1.self.rem_data_len + chunk2.length ≤ MAX_PACKET_LENGTH
    simp only [MAX_PACKET_LENGTH]; omega
  have hfr2 := receiveFbsFrames_data_frames r1.self r1.frames channel r1.errors
    ⟨true, chunk2, e⟩ hs1 rfl hl2 hfit2
  have hres2 := receiveFbsFrames_data_result r1.self r1.frames channel r1.errors
    ⟨true, chunk2, e⟩ hs1 rfl hl2 hfit2
  have hwe2 : r1.self.rem_data_len + chunk2.length = chunk1.length + chunk2.length - j := by
    omega
  simp only [hwe2] at hfr2 hres2
  obtain ⟨ex, e1, e2, e3, e4, e5, e6⟩ := scanLoop_shift
    (recvInto (copy_n (r1.self._data_socket channel)._nbbuffer r1.self.rem_data_start
      r1.self.rem_data_len) r1.self.rem_data_len chunk2)
    (recvInto (copy_n (self._data_socket channel)._nbbuffer self.rem_data_start 0) 0
      (chunk1 ++ chunk2))
    (chunk1.length + chunk2.length) j (by omega) hlen
    (fun k hk => by
      rw [recvInto_zero _ _ _ (by rw [List.length_append]; omega)]
      by_cases hk1 : k < r1.self.rem_data_len
      · have hst : r1.self.rem_data_start = j := by
          rcases hstart1 with h0 | h0
          · omega
          · exact h0
        have h3 : ¬ (r1.self.rem_data_len ≤ k ∧ k < r1.self.rem_data_len + chunk2.length) := by
          omega
        simp only [recvInto, h3, if_false, copy_n, hk1, if_true]
        rw [hst, hb1 (j + k) (by omega), List.getD_append _ _ _ _ (by omega)]
      · have h3 : r1.self.rem_data_len ≤ k ∧ k < r1.self.rem_data_len + chunk2.length := by
          omega
        simp only [recvInto, h3, and_self, if_true]
        rw [List.getD_append_right _ _ _ _ (by omega)]
        congr 1
        omega)
    (chunk1.length + chunk2.length - j + 1) 0 n' 0 fr' [] (by omega)
  simp only [Nat.add_zero] at e4 e5 e6
  rw [List.nil_append] at e1
  rw [Nat.zero_add] at e2
  refine ⟨⟨n', ex.length, hr1, ?_, ?_⟩, ?_⟩
  · show r2.result = _
    rw [show r2.result = _ from hres2 e3, e2]
  · show rAll.result = _
    rw [show rAll.result = _ from hresA (by rw [hcont]; exact e6), hcont, e5]
  · show r1.frames ++ r2.frames.map _ = rAll.frames
    rw [show rAll.frames = _ from hfrA, hcont, e4, show r2.frames = _ from hfr2, e1, hf1]
    congr 2
    funext x
    congr 1
    omega

/-- Witness of C20: two frames read as 45 + 35 bytes, the second frame straddling the
cut. -/
theorem C20_two_read_reassembly_witness :
    (fbsFrame ++ fbsFrame.take 5 ≠ [] ∧ fbsFrame.drop 5 ≠ [] ∧
      (fbsFrame ++ fbsFrame.take 5).length + (fbsFrame.drop 5).length ≤ 8000) ∧
    (let r1 := fbsReady.receiveFbsFrames [] .CHANNEL_1 0
        ⟨true, fbsFrame ++ fbsFrame.take 5, true⟩
     let r2 := r1.self.receiveFbsFrames r1.frames .CHANNEL_1 r1.errors
        ⟨true, fbsFrame.drop 5, true⟩
     let rAll := fbsReady.receiveFbsFrames [] .CHANNEL_1 0
        ⟨true, (fbsFrame ++ fbsFrame.take 5) ++ fbsFrame.drop 5, true⟩
     (∃ n1 n2, r1.result = .ret n1 ∧ r2.result = .ret n2 ∧ rAll.result = .ret (n1 + n2)) ∧
     r1.frames ++ r2.frames.map
        (fun x => x + ((fbsFrame ++ fbsFrame.take 5).length - r1.self.rem_data_len))
       = rAll.frames) :=
  ⟨by decide,
    C20_two_read_reassembly fbsReady [] .CHANNEL_1 0 true (fbsFrame ++ fbsFrame.take 5)
      (fbsFrame.drop 5) rfl rfl (by decide) (by decide) (by decide)⟩

open fbs_receiver lpps_receiver in
/-- C21 (the scan is total and in bounds): for every carryover with
`rem_data_start + rem_data_len ≤ 8000` and every `write_end` with
`rem_data_len < write_end ≤ 8000`, the relocation copy reads and writes only indices
below 8000 (and these are the indices `copy_n` depends on and changes); the scan loops
of `receiveFbsFrames` and `receiveLppsFrames`, run with the bound `write_end + 1` the
calls give them, are left by one of their exits after at most `write_end` iterations,
and every buffer index their header tests read is below `write_end`.  The calls
themselves never run out of the bound, for any receiver state and socket answer. -/
theorem C21_scan_total_in_bounds (data : NetBuffer)
    (rem_data_start rem_data_len write_end : Nat)
    (hcarry : rem_data_start + rem_data_len ≤ 8000)
    (hwe : rem_data_len < write_end ∧ write_end ≤ 8000) :
    ((∀ k ∈ copy_n_reads rem_data_start rem_data_len, k < MAX_PACKET_LENGTH) ∧
      (∀ k ∈ copy_n_writes rem_data_len, k < MAX_PACKET_LENGTH) ∧
      (∀ k ∈ copy_n_writes rem_data_len,
        rem_data_start + k ∈ copy_n_reads rem_data_start rem_data_len ∧
        copy_n data rem_data_start rem_data_len k = data (rem_data_start + k)) ∧
      (∀ k, k ∉ copy_n_writes rem_data_len →
        copy_n data rem_data_start rem_data_len k = data k)) ∧
    ((fbs_receiver.scanLoopTrace data write_end (write_end + 1) 0 0 []).exit
        = fbs_receiver.scanLoop data write_end (write_end + 1) 0 0 [] ∧
      (fbs_receiver.scanLoopTrace data write_end (write_end + 1) 0 0 []).exit ≠ .outOfFuel ∧
      (fbs_receiver.scanLoopTrace data write_end (write_end + 1) 0 0 []).iterations
        ≤ write_end ∧
      (∀ r ∈ (fbs_receiver.scanLoopTrace data write_end (write_end + 1) 0 0 []).reads,
        r < write_end)) ∧
    ((lpps_receiver.scanLoopTrace data write_end (write_end + 1) 0 0 []).exit
        = lpps_receiver.scanLoop data write_end (write_end + 1) 0 0 [] ∧
      (lpps_receiver.scanLoopTrace data write_end (write_end + 1) 0 0 []).exit ≠ .outOfFuel ∧
      (lpps_receiver.scanLoopTrace data write_end (write_end + 1) 0 0 []).iterations
        ≤ write_end ∧
      (∀ r ∈ (lpps_receiver.scanLoopTrace data write_end (write_end + 1) 0 0 []).reads,
        r < write_end)) ∧
    (∀ (fs : FbsReceiver) (frames0 : List Nat) (ch : fbs_channels) (errors : Nat)
        (env : SockEnv), (fs.receiveFbsFrames frames0 ch errors env).result ≠ .noReturn) ∧
    (∀ (ls : LppsReceiver) (frames0 : List Nat) (ch : lpps_channels) (errors : Nat)
        (env : SockEnv), (ls.receiveLppsFrames frames0 ch errors env).result ≠ .noReturn) := by
  obtain ⟨f1, f2, f3⟩ :=
    fbs_receiver.scanLoopTrace_bounds data write_end hwe.2 (write_end + 1) 0 0 [] (by omega)
  obtain ⟨l1, l2, l3⟩ :=
    lpps_receiver.lpps_scanLoopTrace_bounds data write_end hwe.2 (write_end + 1) 0 0 []
      (by omega)
  refine ⟨⟨copy_n_reads_lt _ _ (by simp only [MAX_PACKET_LENGTH]; omega),
      copy_n_writes_lt _ (by simp only [MAX_PACKET_LENGTH]; omega),
      (copy_n_accesses data rem_data_start rem_data_len).1,
      (copy_n_accesses data rem_data_start rem_data_len).2⟩,
    ⟨fbs_receiver.scanLoopTrace_exit data write_end _ _ _ _, f1, by omega, f3⟩,
    ⟨lpps_receiver.lpps_scanLoopTrace_exit data write_end _ _ _ _, l1, by omega, l3⟩,
    fbs_receiver.receiveFbsFrames_returns, lpps_receiver.receiveLppsFrames_returns⟩

open fbs_receiver lpps_receiver in
/-- Witness of C21: a carryover of 5 bytes at offset 40 and a window of 40 bytes that
holds one FBS frame. -/
theorem C21_scan_total_in_bounds_witness :
    (40 + 5 ≤ 8000 ∧ 5 < 40 ∧ 40 ≤ 8000) ∧
    (((∀ k ∈ copy_n_reads 40 5, k < MAX_PACKET_LENGTH) ∧
      (∀ k ∈ copy_n_writes 5, k < MAX_PACKET_LENGTH) ∧
      (∀ k ∈ copy_n_writes 5,
        40 + k ∈ copy_n_reads 40 5 ∧
        copy_n fbsFrameBuffer 40 5 k = fbsFrameBuffer (40 + k)) ∧
      (∀ k, k ∉ copy_n_writes 5 →
        copy_n fbsFrameBuffer 40 5 k = fbsFrameBuffer k)) ∧
    ((fbs_receiver.scanLoopTrace fbsFrameBuffer 40 (40 + 1) 0 0 []).exit
        = fbs_receiver.scanLoop fbsFrameBuffer 40 (40 + 1) 0 0 [] ∧
      (fbs_receiver.scanLoopTrace fbsFrameBuffer 40 (40 + 1) 0 0 []).exit ≠ .outOfFuel ∧
      (fbs_receiver.scanLoopTrace fbsFrameBuffer 40 (40 + 1) 0 0 []).iterations
        ≤ 40 ∧
      (∀ r ∈ (fbs_receiver.scanLoopTrace fbsFrameBuffer 40 (40 + 1) 0 0 []).reads,
        r < 40)) ∧
    ((lpps_receiver.scanLoopTrace fbsFrameBuffer 40 (40 + 1) 0 0 []).exit
        = lpps_receiver.scanLoop fbsFrameBuffer 40 (40 + 1) 0 0 [] ∧
      (lpps_receiver.scanLoopTrace fbsFrameBuffer 40 (40 + 1) 0 0 []).exit ≠ .outOfFuel ∧
      (lpps_receiver.scanLoopTrace fbsFrameBuffer 40 (40 + 1) 0 0 []).iterations
        ≤ 40 ∧
      (∀ r ∈ (lpps_receiver.scanLoopTrace fbsFrameBuffer 40 (40 + 1) 0 0 []).reads,
        r < 40)) ∧
    (∀ (fs : FbsReceiver) (frames0 : List Nat) (ch : fbs_channels) (errors : Nat)
        (env : SockEnv), (fs.receiveFbsFrames frames0 ch errors env).result ≠ .noReturn) ∧
    (∀ (ls : LppsReceiver) (frames0 : List Nat) (ch : lpps_channels) (errors : Nat)
        (env : SockEnv), (ls.receiveLppsFrames frames0 ch errors env).result ≠ .noReturn)) :=
  ⟨by decide,
    C21_scan_total_in_bounds fbsFrameBuffer 40 5 40 (by decide)
      ⟨by decide, by decide⟩⟩
